import Mathlib

set_option maxRecDepth 8000

/-!
Verification development for a multi-source search aggregator.

Python strings are modelled as lists of Unicode code points (`Str`), and
Python JSON-like values (the dictionaries and lists that adapters build and
the formatter consumes) as the inductive type `Val`.  Network effects are
modelled by passing each adapter the parsed upstream response (or an
exception, via `Except`): the translation of each function below follows the
corresponding Python function line by line.
-/

/-- Python strings are modelled as lists of Unicode code points. -/
abbrev Str := List Nat

/-- Code points of a Lean string literal. -/
def String.S (s : String) : Str := s.data.map Char.toNat

/-- ASCII whitespace, the character class used by Python str.strip and
str.split (restricted to ASCII in this model). -/
def pySpace (c : Nat) : Bool :=
  decide (c = 32 ∨ c = 9 ∨ c = 10 ∨ c = 13 ∨ c = 11 ∨ c = 12)

/-- Python str.strip(): drop leading and trailing whitespace. -/
def strip (l : Str) : Str :=
  ((l.dropWhile pySpace).reverse.dropWhile pySpace).reverse

/-- Python str.startswith. The first argument is the subject string, the
second the pattern. -/
def startsWith : Str → Str → Bool
  | _, [] => true
  | [], _ :: _ => false
  | c :: cs, p :: ps => if c = p then startsWith cs ps else false

/-- Python substring containment: `p in l`. -/
def isSubstr (p : Str) : Str → Bool
  | [] => p.isEmpty
  | c :: cs => startsWith (c :: cs) p || isSubstr p cs

/-- Python `ch in s` for a single character. -/
def containsCh (l : Str) (c : Nat) : Bool := l.any (fun x => decide (x = c))

/-- Helper for `pySplit`: accumulates the current word (reversed). -/
def pySplitAux : Str → Str → List Str
  | [], acc => if acc.isEmpty then [] else [acc.reverse]
  | c :: cs, acc =>
    if pySpace c then
      if acc.isEmpty then pySplitAux cs [] else acc.reverse :: pySplitAux cs []
    else pySplitAux cs (c :: acc)

/-- Python str.split() with no separator: split on whitespace runs,
dropping empty pieces. -/
def pySplit (l : Str) : List Str := pySplitAux l []

/-- Python sep.join(pieces). -/
def pyJoin (sep : Str) : List Str → Str
  | [] => []
  | [x] => x
  | x :: xs => x ++ sep ++ pyJoin sep xs

/-- ASCII lower-casing of one code point.  Python str.lower also maps
non-ASCII letters; those are left unchanged here, so statements that rely on
lower-casing are evaluated or stated only on inputs where this difference is
immaterial. -/
def lowerN (c : Nat) : Nat := if 65 ≤ c ∧ c ≤ 90 then c + 32 else c

/-- ASCII upper-casing of one code point. -/
def upperN (c : Nat) : Nat := if 97 ≤ c ∧ c ≤ 122 then c - 32 else c

/-- Python str.lower, character-wise with the ASCII mapping. -/
def pyLower (l : Str) : Str := l.map lowerN

/-- Upper-casing of one code point as a string: Python str.upper performs a
full (one-to-many) case mapping.  The model covers the ASCII letters and the
sharp s 223 (U+00DF), which upper-cases to the two letters SS; all other
code points are left unchanged. -/
def upperCh (c : Nat) : Str :=
  if 97 ≤ c ∧ c ≤ 122 then [c - 32]
  else if c = 223 then [83, 83]
  else [c]

/-- Python str.upper (full case mapping, modelled by `upperCh`). -/
def pyUpper : Str → Str
  | [] => []
  | c :: cs => upperCh c ++ pyUpper cs

/-- Python str.replace for single characters. -/
def replaceCh (l : Str) (a b : Nat) : Str :=
  l.map (fun c => if c = a then b else c)

/-- Split `l` at the first occurrence of `sep`, if any: returns the part
before and the part after the separator. -/
def findSep (sep : Str) : Str → Option (Str × Str)
  | [] => if sep.isEmpty then some ([], []) else Option.none
  | c :: cs =>
    if startsWith (c :: cs) sep then some ([], (c :: cs).drop sep.length)
    else
      match findSep sep cs with
      | some (pre, post) => some (c :: pre, post)
      | Option.none => Option.none

/-- Fueled worker for `splitOnSep`. -/
def splitOnSepAux (sep : Str) : Nat → Str → List Str
  | 0, rest => [rest]
  | fuel + 1, rest =>
    match findSep sep rest with
    | Option.none => [rest]
    | some (pre, post) => pre :: splitOnSepAux sep fuel post

/-- Python s.split(sep) for a non-empty separator. -/
def splitOnSep (sep : Str) (l : Str) : List Str :=
  if sep.isEmpty then [l] else splitOnSepAux sep (l.length + 1) l

/-- Python s.split(sep, 1). -/
def splitOnceOn (sep : Str) (l : Str) : List Str :=
  match findSep sep l with
  | some (pre, post) => [pre, post]
  | Option.none => [l]

/-- Decimal digits of a natural number (fueled worker). -/
def natStrAux : Nat → Nat → Str
  | 0, _ => []
  | fuel + 1, n => if n < 10 then [48 + n] else natStrAux fuel (n / 10) ++ [48 + n % 10]

/-- Python str(n) for a natural number. -/
def natStr (n : Nat) : Str := natStrAux (n + 1) n

/-- Python str(i) for an integer. -/
def intStr (i : Int) : Str := if i < 0 then 45 :: natStr i.natAbs else natStr i.natAbs

/-- Group the reversed digit list in blocks of three, comma separated. -/
def commaRev : Nat → Str → Str
  | _, [] => []
  | 0, l => l
  | fuel + 1, l =>
    if l.length ≤ 3 then l else l.take 3 ++ 44 :: commaRev fuel (l.drop 3)

/-- Python format spec `:,` for a natural number. -/
def natComma (n : Nat) : Str :=
  (commaRev (natStr n).length (natStr n).reverse).reverse

/-- Python format spec `:,` for an integer. -/
def intComma (i : Int) : Str :=
  if i < 0 then 45 :: natComma i.natAbs else natComma i.natAbs

/-- Python values as built and consumed by the adapters: strings, integers,
booleans, None, lists (`nil`/`cons`) and dictionaries (`dnil`/`dcons`). -/
inductive Val where
  | s (x : Str)
  | i (n : Int)
  | b (x : Bool)
  | none
  | nil
  | cons (hd tl : Val)
  | dnil
  | dcons (k : Str) (v tl : Val)
deriving DecidableEq

/-- Build a `Val` list from a Lean list. -/
def VL : List Val → Val := fun xs => xs.foldr Val.cons Val.nil

/-- Build a `Val` dictionary from a Lean association list. -/
def VD : List (Str × Val) → Val :=
  fun fs => fs.foldr (fun kv t => Val.dcons kv.1 kv.2 t) Val.dnil

/-- Dictionary lookup (first matching key). -/
def dlookup : Val → Str → Option Val
  | .dcons k v t, key => if k = key then some v else dlookup t key
  | _, _ => Option.none

/-- Python `key in d` for dictionaries. -/
def hasKey (v : Val) (k : Str) : Bool := (dlookup v k).isSome

/-- Python d.get(key, default). -/
def pyGet (v : Val) (k : Str) (d : Val) : Val := (dlookup v k).getD d

/-- Python truthiness of a value. -/
def truthy : Val → Bool
  | .s x => !x.isEmpty
  | .i n => decide (n ≠ 0)
  | .b x => x
  | .none => false
  | .nil => false
  | .cons _ _ => true
  | .dnil => false
  | .dcons _ _ _ => true

/-- The elements of a list value. -/
def toList : Val → List Val
  | .cons h t => h :: toList t
  | _ => []

/-- Python isinstance(v, list). -/
def isListV : Val → Bool
  | .nil => true
  | .cons _ _ => true
  | _ => false

/-- Python isinstance(v, dict). -/
def isDictV : Val → Bool
  | .dnil => true
  | .dcons _ _ _ => true
  | _ => false

/-- Read a value expected to be a string (non-strings read as empty; the
corresponding Python TypeError path is covered by the `.error` input of each
adapter). -/
def vStr : Val → Str
  | .s x => x
  | _ => []

/-- Python v[:n] slicing for list values. -/
def vTake (n : Nat) (v : Val) : Val := VL ((toList v).take n)

/-- Python len for list values. -/
def vLen (v : Val) : Nat := (toList v).length

/-- Dictionary items as an association list. -/
def dItems : Val → List (Str × Val)
  | .dcons k v t => (k, v) :: dItems t
  | _ => []

/-- Python string slicing v[:n] on a string-typed value. -/
def pySlice (v : Val) (n : Nat) : Str := (vStr v).take n

/-- repr-escape one string with the chosen quote character. -/
def escQ (q : Nat) : Str → Str
  | [] => []
  | c :: cs =>
    (if c = 92 then [92, 92]
     else if c = q then [92, c]
     else if c = 10 then [92, 110]
     else if c = 13 then [92, 114]
     else if c = 9 then [92, 116]
     else [c]) ++ escQ q cs

/-- Python repr of a string: single quotes, or double quotes when the string
contains a single quote but no double quote (other non-printable escapes are
not modelled). -/
def strRepr (x : Str) : Str :=
  let q : Nat := if containsCh x 39 && !(containsCh x 34) then 34 else 39
  q :: escQ q x ++ [q]

/-- Python repr of a value.  The Boolean flag selects between repr of a
value (`true`) and the comma-separated continuation of the enclosing list or
dictionary (`false`). -/
def pyReprF : Bool → Val → Str
  | _, .s x => strRepr x
  | _, .i n => intStr n
  | _, .b true => "True".S
  | _, .b false => "False".S
  | _, .none => "None".S
  | true, .nil => [91, 93]
  | true, .cons h t => 91 :: pyReprF true h ++ pyReprF false t ++ [93]
  | false, .nil => []
  | false, .cons h t => ", ".S ++ pyReprF true h ++ pyReprF false t
  | true, .dnil => [123, 125]
  | true, .dcons k v t =>
    123 :: strRepr k ++ ": ".S ++ pyReprF true v ++ pyReprF false t ++ [125]
  | false, .dnil => []
  | false, .dcons k v t =>
    ", ".S ++ strRepr k ++ ": ".S ++ pyReprF true v ++ pyReprF false t

/-- Python repr of a value. -/
def pyRepr (v : Val) : Str := pyReprF true v

/-- Python str of a value (strings render bare, everything else as repr). -/
def pyStr : Val → Str
  | .s x => x
  | v => pyRepr v

/-! ## Intent classification (detect_mode) -/

/-- The closed mode set returned by `detect_mode`. -/
inductive Mode where
  | search
  | chat
  | deep_think
deriving DecidableEq

/-- A single quote character, as a string piece. -/
def apo : Str := [39]

/-- Search triggers: queries that should trigger web search. -/
def search_keywords : List Str :=
  ["what is".S, "who is".S, "where is".S, "when is".S, "why is".S, "how to".S,
   "current".S, "latest".S, "news about".S, "weather in".S, "temperature in".S,
   "air quality in".S, "location of".S, "find".S, "search for".S, "look up".S,
   "define".S, "meaning of".S, "translate".S, "map of".S, "country".S,
   "research".S, "paper".S, "article".S, "study".S, "results".S, "information".S,
   "data".S, "statistics".S, "facts about".S, "population of".S, "capital of".S,
   "latest news".S, "current events".S, "breaking news".S, "headlines".S,
   "stock price".S, "market".S, "currency".S, "exchange rate".S, "price of".S,
   "history of".S, "timeline".S, "events".S, "historical".S, "biography".S,
   "recipe for".S, "how to cook".S, "how to make".S, "ingredients for".S,
   "distance between".S, "travel time".S, "route from".S, "directions to".S,
   "flights to".S, "hotels in".S, "restaurants near".S, "things to do in".S,
   "movies about".S, "books by".S, "author of".S, "director of".S, "cast of".S,
   "symptoms of".S, "treatment for".S, "cure for".S, "medicine for".S, "disease".S,
   "company profile".S, "business".S, "ceo of".S, "founder of".S, "products of".S,
   "scientific".S, "research on".S, "experiment".S, "study on".S, "paper about".S]

/-- Chat triggers: conversational phrases that go directly to the AI. -/
def chat_keywords : List Str :=
  ["hello".S, "hi".S, "hey".S, "good morning".S, "good afternoon".S, "good evening".S,
   "how are you".S, "thank you".S, "thanks".S, "please".S, "could you".S, "can you".S,
   "would you".S, "tell me about".S, "explain".S, "describe".S, "discuss".S,
   "what do you think".S, "your opinion".S, "do you know".S, "do you think".S,
   "i want to".S, "i need help with".S, "help me".S, "assist me".S,
   "let".S ++ apo ++ "s talk".S, "chat about".S, "converse".S, "conversation".S,
   "how do i".S, "what should i".S, "what would you".S, "what can you".S,
   "can we talk".S, "let".S ++ apo ++ "s discuss".S,
   "i".S ++ apo ++ "d like to".S, "i".S ++ apo ++ "m wondering".S,
   "i".S ++ apo ++ "m curious".S, "i".S ++ apo ++ "m interested in".S,
   "what".S ++ apo ++ "s your".S, "how".S ++ apo ++ "s it going".S,
   "nice to meet you".S, "good to see you".S, "long time no see".S,
   "how have you been".S, "what".S ++ apo ++ "s up".S, "what".S ++ apo ++ "s new".S,
   "how".S ++ apo ++ "s your day".S, "how".S ++ apo ++ "s everything".S,
   "how".S ++ apo ++ "s life".S, "how are things".S, "how do you do".S]

/-- Deep think triggers: philosophical or analytical questions. -/
def deep_think_keywords : List Str :=
  ["what is the meaning".S, "philosophy of".S, "why do we".S, "purpose of".S,
   "ethical".S, "moral dilemma".S, "should i".S, "what if".S, "imagine if".S,
   "theoretical".S, "hypothetical".S, "thought experiment".S, "deep question".S,
   "profound".S, "existential".S, "life and death".S, "universe".S, "cosmos".S,
   "consciousness".S, "mind".S, "soul".S, "spirituality".S, "religion".S,
   "love is".S, "happiness is".S, "success means".S, "beauty is".S,
   "truth is".S, "justice is".S, "freedom is".S, "equality is".S,
   "analyze this".S, "critically examine".S, "evaluate".S, "assess".S,
   "compare and contrast".S, "discuss the implications".S,
   "what are the consequences".S,
   "future of".S, "prediction".S, "forecast".S, "speculate".S, "theorize".S]

/-- One keyword test of detect_mode:
query_lower.startswith(keyword) or " keyword " in " query_lower ". -/
def kwMatch (ql kw : Str) : Bool :=
  startsWith ql kw || isSubstr (32 :: (kw ++ [32])) (32 :: (ql ++ [32]))

/-- Whether any keyword of a set matches (the for loops in detect_mode). -/
def hitsAny (ql : Str) (kws : List Str) : Bool := kws.any (kwMatch ql)

/-- Question words used by the structural fallback. -/
def question_words : List Str :=
  ["what".S, "who".S, "where".S, "when".S, "why".S, "how".S, "which".S]

/-- Conversational patterns used by the question-mark fallback. -/
def conversational_patterns : List Str :=
  ["how are you".S, "do you".S, "can you".S, "would you".S, "could you".S]

/-- The body of detect_mode, as a function of the lower-cased stripped query
and of whether the raw query contains a question mark (the only use the
Python function makes of the raw query). -/
def detectCore (query_lower : Str) (hasQmark : Bool) : Mode :=
  if hitsAny query_lower deep_think_keywords then Mode.deep_think
  else if hitsAny query_lower search_keywords then Mode.search
  else if hitsAny query_lower chat_keywords then Mode.chat
  else
    let words := pySplit query_lower
    if words.length ≤ 2 then Mode.search
    else if question_words.any (fun w => startsWith query_lower w) then Mode.search
    else if hasQmark then
      if conversational_patterns.any (fun p => isSubstr p query_lower) then Mode.chat
      else Mode.search
    else Mode.chat

/-- detect_mode: classify a query as search, chat or deep_think. -/
def detect_mode (query : Str) : Mode :=
  detectCore (strip (pyLower query)) (containsCh query 63)

/-- The classifier as described by the specification (claim C4): the three
keyword sets in the fixed priority order deep-reasoning, search,
conversational, first match winning; then the structural fallbacks in fixed
order: at most two words gives search, an interrogative start gives search, a
question mark that is not conversational gives search, otherwise chat. -/
def detectModeSpecC4 (query : Str) : Mode :=
  let ql := strip (pyLower query)
  if hitsAny ql deep_think_keywords then Mode.deep_think
  else if hitsAny ql search_keywords then Mode.search
  else if hitsAny ql chat_keywords then Mode.chat
  else if (pySplit ql).length ≤ 2 then Mode.search
  else if question_words.any (fun w => startsWith ql w) then Mode.search
  else if containsCh query 63 &&
      !(conversational_patterns.any (fun p => isSubstr p ql)) then Mode.search
  else Mode.chat

/-! ## Source adapters

Each adapter receives the parsed upstream response (or an exception raised
anywhere inside its try block, as the `.error` case) and builds the records
the Python function builds.  HTTP responses carry a status code and a body
whose JSON parse may itself fail. -/

/-- An HTTP response: status code plus parsed JSON body (or a parse error). -/
structure Resp where
  status : Nat
  body : Except Str Val

/-- The error-marker record every adapter returns on failure. -/
def errRec (e : Str) : Val := VD [("error".S, Val.s e)]

/-- Python v[0], when v is a non-empty list. -/
def vIndex0 : Val → Option Val
  | .cons h _ => some h
  | _ => Option.none

/-- Python v[0] with a default for the empty case. -/
def vIndex0D (v : Val) (d : Val) : Val :=
  match v with
  | .cons h _ => h
  | _ => d

/-- One arXiv paper as surfaced by the arxiv client library. -/
structure ArxivPaper where
  title : Str
  authors : List Str
  summary : Str
  published : Option Str
  entry_id : Str
  pdf_url : Str
  categories : List Str
  doi : Option Str

/-- The record search_arxiv builds per paper. -/
def arxivRec (p : ArxivPaper) : Val :=
  VD [("title".S, Val.s p.title),
      ("authors".S, VL (p.authors.map Val.s)),
      ("summary".S, Val.s p.summary),
      ("published".S, Val.s (p.published.getD "N/A".S)),
      ("url".S, Val.s p.entry_id),
      ("pdf_url".S, Val.s p.pdf_url),
      ("categories".S, VL (p.categories.map Val.s)),
      ("doi".S, match p.doi with | some d => Val.s d | Option.none => Val.none)]

/-- search_arxiv: list of paper records, or a one-element error marker. -/
def search_arxiv (input : Except Str (List ArxivPaper)) : Val :=
  match input with
  | .error e => VL [errRec e]
  | .ok papers => VL (papers.map arxivRec)

/-- The separator used to split DuckDuckGo related-topic texts. -/
def ddgSep : Str := " - ".S

/-- The instant-answer record of search_duckduckgo. -/
def ddgInstantRec (data : Val) : Val :=
  VD [("title".S, pyGet data "Heading".S (Val.s "Instant Answer".S)),
      ("body".S, pyGet data "AbstractText".S (Val.s [])),
      ("url".S, pyGet data "AbstractURL".S (Val.s [])),
      ("type".S, Val.s "instant_answer".S)]

/-- The related-topic record for a dictionary-shaped topic. -/
def ddgTopicDictRec (topic : Val) : Val :=
  let txt := vStr (pyGet topic "Text".S (Val.s []))
  VD [("title".S,
        Val.s (if isSubstr ddgSep txt then (splitOnSep ddgSep txt).getD 0 [] else txt)),
      ("body".S,
        Val.s (if isSubstr ddgSep txt then (splitOnSep ddgSep txt).getD 1 [] else [])),
      ("url".S, pyGet topic "FirstURL".S (Val.s [])),
      ("type".S, Val.s "related_topic".S)]

/-- The related-topic record for a string-shaped topic (split once). -/
def ddgTopicStrRec (txt : Str) : Val :=
  VD [("title".S, Val.s ((splitOnceOn ddgSep txt).getD 0 [])),
      ("body".S, Val.s ((splitOnceOn ddgSep txt).getD 1 [])),
      ("url".S, Val.s []),
      ("type".S, Val.s "related_topic".S)]

/-- The body of the related-topics loop of search_duckduckgo: a
dictionary-shaped topic with Text and FirstURL keys, or a string-shaped
topic containing the separator, appends one record; anything else appends
nothing. -/
def ddgStep (topic : Val) (results : List Val) : List Val :=
  if isDictV topic && hasKey topic "Text".S && hasKey topic "FirstURL".S then
    results ++ [ddgTopicDictRec topic]
  else
    match topic with
    | .s txt => if isSubstr ddgSep txt then results ++ [ddgTopicStrRec txt] else results
    | _ => results

/-- The related-topics loop of search_duckduckgo, with its break once
max_results records are accumulated. -/
def ddgLoop (max_results : Nat) : List Val → List Val → List Val
  | [], results => results
  | topic :: ts, results =>
    let results2 := ddgStep topic results
    if max_results ≤ results2.length then results2 else ddgLoop max_results ts results2

/-- search_duckduckgo. -/
def search_duckduckgo (input : Except Str Val) (max_results : Nat) : Val :=
  match input with
  | .error e => VL [errRec e]
  | .ok data =>
    let results0 :=
      if truthy (pyGet data "AbstractText".S Val.none) then [ddgInstantRec data] else []
    VL (ddgLoop max_results (toList (pyGet data "RelatedTopics".S Val.nil)) results0)

/-- get_instant_answer. -/
def get_instant_answer (input : Except Str Val) : Val :=
  match input with
  | .error e => errRec e
  | .ok data =>
    VD [("answer".S, pyGet data "AbstractText".S (Val.s [])),
        ("heading".S, pyGet data "Heading".S (Val.s [])),
        ("url".S, pyGet data "AbstractURL".S (Val.s [])),
        ("image".S, pyGet data "Image".S (Val.s []))]

/-- One news record built from a scraped title and snippet. -/
def newsRec (query : Str) (tb : Str × Str) : Val :=
  VD [("title".S, Val.s tb.1),
      ("body".S, Val.s tb.2),
      ("source".S, Val.s "DuckDuckGo".S),
      ("url".S, Val.s ("https://duckduckgo.com/?q=".S ++ replaceCh query 32 43))]

/-- search_news: regex scraping is modelled at its output boundary (the
lists of scraped titles and snippets); `fb` is the upstream input of the
search_duckduckgo fallback invoked when nothing was scraped. -/
def search_news (query : Str) (scraped : Except Str (List Str × List Str))
    (fb : Except Str Val) (max_results : Nat) : Val :=
  match scraped with
  | .error e => VL [errRec e]
  | .ok ts =>
    let n := min (min ts.1.length max_results) ts.2.length
    let results := ((ts.1.zip ts.2).take n).map (newsRec query)
    if results.isEmpty then search_duckduckgo fb max_results else VL results

/-- The outcomes of the wikipedia library calls used by search_wikipedia. -/
inductive WikiUpstream where
  | noResults
  | page (title summary url : Str) (categories : List Str) (content : Str)
  | disambig (options : List Str)
  | pageError

/-- search_wikipedia. -/
def search_wikipedia (query : Str) (input : Except Str WikiUpstream) : Val :=
  match input with
  | .error e => errRec e
  | .ok WikiUpstream.noResults =>
    VD [("exists".S, Val.b false), ("message".S, Val.s "No Wikipedia page found".S)]
  | .ok (WikiUpstream.page title summary url categories content) =>
    VD [("exists".S, Val.b true),
        ("title".S, Val.s title),
        ("summary".S, Val.s summary),
        ("url".S, Val.s url),
        ("categories".S, VL ((categories.take 5).map Val.s)),
        ("content".S, Val.s (content.take 1000))]
  | .ok (WikiUpstream.disambig options) =>
    VD [("exists".S, Val.b true),
        ("title".S, Val.s query),
        ("summary".S,
          Val.s ("Multiple pages found. Options: ".S ++ pyJoin ", ".S (options.take 5))),
        ("url".S, Val.s ("https://en.wikipedia.org/wiki/".S ++ replaceCh query 32 95)),
        ("disambiguation".S, VL ((options.take 10).map Val.s))]
  | .ok WikiUpstream.pageError =>
    VD [("exists".S, Val.b false), ("message".S, Val.s "Page not found".S)]

/-- get_weather_wttr. -/
def get_weather_wttr (location : Str) (input : Except Str Val) : Val :=
  match input with
  | .error e => errRec e
  | .ok data =>
    match vIndex0 (pyGet data "current_condition".S (VL [VD []])) with
    | Option.none => errRec "list index out of range".S
    | some current =>
      match vIndex0 (pyGet current "weatherDesc".S (VL [VD []])) with
      | Option.none => errRec "list index out of range".S
      | some wd =>
        VD [("location".S, Val.s location),
            ("temperature_c".S, pyGet current "temp_C".S (Val.s "N/A".S)),
            ("temperature_f".S, pyGet current "temp_F".S (Val.s "N/A".S)),
            ("condition".S, pyGet wd "value".S (Val.s "N/A".S)),
            ("humidity".S, pyGet current "humidity".S (Val.s "N/A".S)),
            ("wind_speed_kmph".S, pyGet current "windspeedKmph".S (Val.s "N/A".S)),
            ("wind_speed_mph".S, pyGet current "windspeedMiles".S (Val.s "N/A".S)),
            ("precipitation_mm".S, pyGet current "precipMM".S (Val.s "N/A".S)),
            ("pressure_mb".S, pyGet current "pressure".S (Val.s "N/A".S)),
            ("feels_like_c".S, pyGet current "FeelsLikeC".S (Val.s "N/A".S)),
            ("feels_like_f".S, pyGet current "FeelsLikeF".S (Val.s "N/A".S)),
            ("observation_time".S, pyGet current "observation_time".S (Val.s "N/A".S))]

/-- One air-quality measurement record. -/
def aqMeasurementRec (m : Val) : Val :=
  VD [("parameter".S, pyGet m "parameter".S (Val.s "N/A".S)),
      ("value".S, pyGet m "value".S (Val.s "N/A".S)),
      ("unit".S, pyGet m "unit".S (Val.s "N/A".S)),
      ("last_updated".S, pyGet m "lastUpdated".S (Val.s "N/A".S))]

/-- One air-quality location record. -/
def aqLocationRec (result : Val) : Val :=
  VD [("location".S, pyGet result "location".S (Val.s "N/A".S)),
      ("city".S, pyGet result "city".S (Val.s "N/A".S)),
      ("country".S, pyGet result "country".S (Val.s "N/A".S)),
      ("measurements".S,
        VL ((toList (pyGet result "measurements".S Val.nil)).map aqMeasurementRec))]

/-- get_air_quality. -/
def get_air_quality (location : Str) (input : Except Str Val) : Val :=
  match input with
  | .error e => errRec e
  | .ok data =>
    if truthy (pyGet data "results".S Val.none) then
      let results := ((toList (pyGet data "results".S Val.none)).take 3).map aqLocationRec
      VD [("city".S, Val.s location),
          ("data".S, VL results),
          ("count".S, Val.i results.length)]
    else
      VD [("message".S, Val.s ("No air quality data found for ".S ++ location))]

/-- One wikidata entity record. -/
def wikidataRec (entity : Val) : Val :=
  VD [("id".S, pyGet entity "id".S (Val.s [])),
      ("label".S, pyGet entity "label".S (Val.s [])),
      ("description".S, pyGet entity "description".S (Val.s [])),
      ("url".S,
        Val.s ("https://www.wikidata.org/wiki/".S ++ pyStr (pyGet entity "id".S (Val.s [])))),
      ("concepturi".S, pyGet entity "concepturi".S (Val.s []))]

/-- search_wikidata. -/
def search_wikidata (input : Except Str Val) : Val :=
  match input with
  | .error e => VL [errRec e]
  | .ok data => VL ((toList (pyGet data "search".S Val.nil)).map wikidataRec)

/-- One OpenLibrary book record. -/
def bookRec (doc : Val) : Val :=
  VD [("title".S, pyGet doc "title".S (Val.s "N/A".S)),
      ("authors".S, pyGet doc "author_name".S (VL [Val.s "Unknown".S])),
      ("first_publish_year".S, pyGet doc "first_publish_year".S (Val.s "N/A".S)),
      ("publisher".S,
        if truthy (pyGet doc "publisher".S Val.none) then
          vIndex0D (pyGet doc "publisher".S (VL [Val.s "Unknown".S])) (Val.s "Unknown".S)
        else Val.s "Unknown".S),
      ("language".S,
        if truthy (pyGet doc "language".S Val.none) then
          vIndex0D (pyGet doc "language".S (VL [Val.s "en".S])) (Val.s "en".S)
        else Val.s "en".S),
      ("subject".S, vTake 3 (pyGet doc "subject".S Val.nil)),
      ("url".S,
        if truthy (pyGet doc "key".S Val.none) then
          Val.s ("https://openlibrary.org".S ++ pyStr (pyGet doc "key".S (Val.s [])))
        else Val.s []),
      ("cover_id".S, pyGet doc "cover_i".S Val.none),
      ("cover_url".S,
        if truthy (pyGet doc "cover_i".S Val.none) then
          Val.s ("https://covers.openlibrary.org/b/id/".S ++
                 pyStr (pyGet doc "cover_i".S Val.none) ++ "-M.jpg".S)
        else Val.none)]

/-- search_books. -/
def search_books (input : Except Str Val) (max_results : Nat) : Val :=
  match input with
  | .error e => VL [errRec e]
  | .ok data => VL (((toList (pyGet data "docs".S Val.nil)).take max_results).map bookRec)

/-- One PubMed article at the XML-parse boundary: element texts, in the
order (LastName, ForeName) for each author element. -/
structure PubArticle where
  title : Option Str
  abstract : Option Str
  authors : List (Option Str × Option Str)
  year : Option Str
  pmid : Option Str

/-- The author strings search_pubmed extracts. -/
def pubmedAuthorStrs (authors : List (Option Str × Option Str)) : List Str :=
  authors.foldr (fun a acc =>
    match a with
    | (some ln, some fn) => (fn ++ " ".S ++ ln) :: acc
    | (some ln, Option.none) => ln :: acc
    | (Option.none, _) => acc) []

/-- The record search_pubmed builds per article, including the abstract
truncation at 500 characters. -/
def pubmedArticleRec (a : PubArticle) : Val :=
  let abstract := a.abstract.getD "No abstract available".S
  VD [("title".S, Val.s (a.title.getD "N/A".S)),
      ("abstract".S,
        Val.s (if 500 < abstract.length then abstract.take 500 ++ "...".S else abstract)),
      ("authors".S, VL (((pubmedAuthorStrs a.authors).take 5).map Val.s)),
      ("year".S, Val.s (a.year.getD "N/A".S)),
      ("pmid".S, Val.s (a.pmid.getD [])),
      ("url".S,
        Val.s (if (a.pmid.getD []).isEmpty then []
               else "https://pubmed.ncbi.nlm.nih.gov/".S ++ a.pmid.getD [] ++ "/".S))]

/-- The ID list extracted from the esearch response. -/
def pubmedIds (search_data : Val) : Val :=
  pyGet (pyGet search_data "esearchresult".S Val.dnil) "idlist".S Val.nil

/-- search_pubmed: two sequential steps; `step2` is the parsed efetch
response, used only when the first step produced IDs. -/
def search_pubmed (step1 : Except Str Val) (step2 : Except Str (List PubArticle)) : Val :=
  match step1 with
  | .error e => VL [errRec e]
  | .ok search_data =>
    let ids := pubmedIds search_data
    if !(truthy ids) then VL [VD [("message".S, Val.s "No articles found".S)]]
    else
      match step2 with
      | .error e => VL [errRec e]
      | .ok articles => VL (articles.map pubmedArticleRec)

/-- geocode_location. -/
def geocode_location (location : Str) (input : Except Str Val) : Val :=
  match input with
  | .error e => errRec e
  | .ok data =>
    match data with
    | .cons result _ =>
      VD [("display_name".S, pyGet result "display_name".S (Val.s "N/A".S)),
          ("latitude".S, pyGet result "lat".S (Val.s "N/A".S)),
          ("longitude".S, pyGet result "lon".S (Val.s "N/A".S)),
          ("type".S, pyGet result "type".S (Val.s "N/A".S)),
          ("category".S, pyGet result "category".S (Val.s "N/A".S)),
          ("importance".S, pyGet result "importance".S (Val.s "N/A".S)),
          ("osm_id".S, pyGet result "osm_id".S (Val.s "N/A".S)),
          ("osm_type".S, pyGet result "osm_type".S (Val.s "N/A".S)),
          ("osm_url".S,
            Val.s ("https://www.openstreetmap.org/".S ++
                   pyStr (pyGet result "osm_type".S (Val.s [])) ++ "/".S ++
                   pyStr (pyGet result "osm_id".S (Val.s [])))),
          ("address".S, pyGet result "address".S Val.dnil)]
    | _ =>
      VD [("message".S, Val.s ("Location ".S ++ apo ++ location ++ apo ++ " not found".S))]

/-- The phonetics list get_definition extracts. -/
def defnPhonetics (word_data : Val) : List Val :=
  if hasKey word_data "phonetics".S then
    (toList (pyGet word_data "phonetics".S Val.nil)).foldr (fun p acc =>
      if truthy (pyGet p "text".S Val.none) then pyGet p "text".S Val.none :: acc else acc) []
  else []

/-- One definition entry of get_definition. -/
def defnDefEntry (definition : Val) : Val :=
  VD [("definition".S, pyGet definition "definition".S (Val.s [])),
      ("example".S, pyGet definition "example".S (Val.s []))]

/-- One meaning entry of get_definition. -/
def defnMeaning (meaning : Val) : Val :=
  VD [("part_of_speech".S, pyGet meaning "partOfSpeech".S (Val.s [])),
      ("definitions".S, VL ((toList (pyGet meaning "definitions".S Val.nil)).map defnDefEntry))]

/-- The meanings list get_definition extracts. -/
def defnMeanings (word_data : Val) : List Val :=
  if hasKey word_data "meanings".S then
    (toList (pyGet word_data "meanings".S Val.nil)).map defnMeaning
  else []

/-- get_definition: note the explicit handling of HTTP 404 before the body
is parsed. -/
def get_definition (word : Str) (input : Except Str Resp) : Val :=
  match input with
  | .error e => errRec e
  | .ok resp =>
    if resp.status = 404 then
      errRec ("Word ".S ++ apo ++ word ++ apo ++ " not found in dictionary".S)
    else
      match resp.body with
      | .error e => errRec e
      | .ok data =>
        match data with
        | .cons word_data _ =>
          VD [("word".S, pyGet word_data "word".S (Val.s word)),
              ("phonetics".S, VL (defnPhonetics word_data)),
              ("meanings".S, VL (defnMeanings word_data)),
              ("license".S, pyGet word_data "license".S Val.dnil),
              ("source_urls".S, pyGet word_data "sourceUrls".S Val.nil)]
        | _ => errRec "Invalid response from dictionary API".S

/-- The languages list search_country extracts. -/
def countryLanguages (country : Val) : List Val :=
  if hasKey country "languages".S then
    (dItems (pyGet country "languages".S Val.dnil)).map (fun kv => kv.2)
  else []

/-- The currencies list search_country extracts. -/
def countryCurrencies (country : Val) : List Val :=
  if hasKey country "currencies".S then
    (dItems (pyGet country "currencies".S Val.dnil)).map (fun kv =>
      Val.s (pyStr (pyGet kv.2 "name".S (Val.s [])) ++ " (".S ++ kv.1 ++ ")".S))
  else []

/-- The country record search_country builds. -/
def countryRec (country : Val) : Val :=
  let capital :=
    if truthy (pyGet country "capital".S Val.none) then
      vIndex0D (pyGet country "capital".S (VL [Val.s "N/A".S])) (Val.s "N/A".S)
    else Val.s "N/A".S
  VD [("name".S, pyGet (pyGet country "name".S Val.dnil) "common".S (Val.s "N/A".S)),
      ("official_name".S, pyGet (pyGet country "name".S Val.dnil) "official".S (Val.s "N/A".S)),
      ("capital".S, capital),
      ("region".S, pyGet country "region".S (Val.s "N/A".S)),
      ("subregion".S, pyGet country "subregion".S (Val.s "N/A".S)),
      ("population".S, pyGet country "population".S (Val.s "N/A".S)),
      ("area".S, pyGet country "area".S (Val.s "N/A".S)),
      ("languages".S, VL (countryLanguages country)),
      ("currencies".S, VL (countryCurrencies country)),
      ("timezones".S, pyGet country "timezones".S Val.nil),
      ("flag_emoji".S, pyGet country "flag".S (Val.s "🇺🇳".S)),
      ("flag_url".S, pyGet (pyGet country "flags".S Val.dnil) "png".S (Val.s [])),
      ("coat_of_arms".S, pyGet (pyGet country "coatOfArms".S Val.dnil) "png".S (Val.s [])),
      ("map_url".S, pyGet (pyGet country "maps".S Val.dnil) "googleMaps".S (Val.s []))]

/-- The response-processing tail of search_country (after the optional
partial-search retry): non-200 statuses become a generic error marker. -/
def countryProcess (query : Str) (resp : Resp) : Val :=
  if resp.status ≠ 200 then
    errRec ("Country ".S ++ apo ++ query ++ apo ++ " not found".S)
  else
    match resp.body with
    | .error e => errRec e
    | .ok data =>
      match data with
      | .cons country _ => countryRec country
      | _ => errRec "No country data found".S

/-- search_country: `r1` is the first request; on a 404 the request is
retried (`r2`) as a partial search. -/
def search_country (query : Str) (r1 : Except Str Resp) (r2 : Except Str Resp) : Val :=
  match r1 with
  | .error e => errRec e
  | .ok resp1 =>
    if resp1.status = 404 then
      match r2 with
      | .error e => errRec e
      | .ok resp2 => countryProcess query resp2
    else countryProcess query resp1

/-- One quote record (search results variant). -/
def quoteRec (quote : Val) : Val :=
  VD [("content".S, pyGet quote "content".S (Val.s [])),
      ("author".S, pyGet quote "author".S (Val.s "Unknown".S)),
      ("tags".S, pyGet quote "tags".S Val.nil),
      ("length".S, pyGet quote "length".S (Val.i 0)),
      ("date_added".S, pyGet quote "dateAdded".S (Val.s [])),
      ("date_modified".S, pyGet quote "dateModified".S (Val.s []))]

/-- One quote record (random-quotes fallback variant). -/
def quoteRandomRec (quote : Val) : Val :=
  VD [("content".S, pyGet quote "content".S (Val.s [])),
      ("author".S, pyGet quote "author".S (Val.s "Unknown".S)),
      ("tags".S, pyGet quote "tags".S Val.nil),
      ("length".S, pyGet quote "length".S (Val.i 0))]

/-- search_quotes: the random-quotes request (`j2`) is issued only when the
search request produced no results. -/
def search_quotes (j1 : Except Str Val) (j2 : Except Str Val) (max_results : Nat) : Val :=
  match j1 with
  | .error e => VL [errRec e]
  | .ok data =>
    let results := ((toList (pyGet data "results".S Val.nil)).take max_results).map quoteRec
    if results.isEmpty then
      match j2 with
      | .error e => VL [errRec e]
      | .ok random_quotes => VL (((toList random_quotes).take max_results).map quoteRandomRec)
    else VL results

/-- One GitHub repository record. -/
def repoRec (repo : Val) : Val :=
  VD [("name".S, pyGet repo "name".S (Val.s "N/A".S)),
      ("full_name".S, pyGet repo "full_name".S (Val.s "N/A".S)),
      ("description".S, pyGet repo "description".S (Val.s "No description".S)),
      ("url".S, pyGet repo "html_url".S (Val.s [])),
      ("stars".S, pyGet repo "stargazers_count".S (Val.i 0)),
      ("forks".S, pyGet repo "forks_count".S (Val.i 0)),
      ("language".S, pyGet repo "language".S (Val.s "N/A".S)),
      ("license".S,
        if truthy (pyGet repo "license".S Val.none) then
          pyGet (pyGet repo "license".S Val.dnil) "name".S (Val.s "No license".S)
        else Val.s "No license".S),
      ("created_at".S, pyGet repo "created_at".S (Val.s [])),
      ("updated_at".S, pyGet repo "updated_at".S (Val.s [])),
      ("owner".S,
        if truthy (pyGet repo "owner".S Val.none) then
          pyGet (pyGet repo "owner".S Val.dnil) "login".S (Val.s "N/A".S)
        else Val.s "N/A".S)]

/-- search_github_repos: note the explicit rate-limit handling of 403. -/
def search_github_repos (input : Except Str Resp) (max_results : Nat) : Val :=
  match input with
  | .error e => VL [errRec e]
  | .ok resp =>
    if resp.status = 403 then
      VL [errRec "GitHub API rate limit exceeded. Try again later.".S]
    else
      match resp.body with
      | .error e => VL [errRec e]
      | .ok data => VL (((toList (pyGet data "items".S Val.nil)).take max_results).map repoRec)

/-- One Stack Overflow question record. -/
def soRec (q : Val) : Val :=
  VD [("question_id".S, pyGet q "question_id".S (Val.s [])),
      ("title".S, pyGet q "title".S (Val.s [])),
      ("is_answered".S, pyGet q "is_answered".S (Val.b false)),
      ("view_count".S, pyGet q "view_count".S (Val.i 0)),
      ("answer_count".S, pyGet q "answer_count".S (Val.i 0)),
      ("score".S, pyGet q "score".S (Val.i 0)),
      ("tags".S, pyGet q "tags".S Val.nil),
      ("link".S, pyGet q "link".S (Val.s [])),
      ("url".S, pyGet q "link".S (Val.s [])),
      ("owner".S,
        if truthy (pyGet q "owner".S Val.none) then
          pyGet (pyGet q "owner".S Val.dnil) "display_name".S (Val.s "Anonymous".S)
        else Val.s "Anonymous".S),
      ("creation_date".S, pyGet q "creation_date".S (Val.i 0))]

/-- search_stackoverflow. -/
def search_stackoverflow (input : Except Str Val) (max_results : Nat) : Val :=
  match input with
  | .error e => VL [errRec e]
  | .ok data => VL (((toList (pyGet data "items".S Val.nil)).take max_results).map soRec)

/-! ## Fan-out aggregation -/

/-- The 16 registered source names, in the order of the futures table. -/
def sourceNames : List Str :=
  ["arxiv".S, "duckduckgo".S, "duckduckgo_instant".S, "news".S, "wikipedia".S,
   "weather".S, "air_quality".S, "wikidata".S, "books".S, "pubmed".S,
   "geocoding".S, "dictionary".S, "country".S, "quotes".S, "github".S,
   "stackoverflow".S]

/-- first_word = query.split()[0] if query.strip() else query. -/
def first_word (query : Str) : Str :=
  if (strip query).isEmpty then query else (pySplit query).headD []

/-- The argument each adapter receives: the dictionary adapter gets the
first word of the query, every other adapter the query itself. -/
def adapterArg (query : Str) (name : Str) : Str :=
  if name = "dictionary".S then first_word query else query

/-- safe_search: the failure-isolating wrapper around one adapter call.  An
exception becomes an error-marker record tagged with the adapter name. -/
def safe_search (name : Str) (outcome : Except Str Val) : Str × Val :=
  match outcome with
  | .ok v => (name, v)
  | .error e => (name, errRec e)

/-- Python dictionary assignment d[k] = v on an association list. -/
def dictSet (m : List (Str × Val)) (k : Str) (v : Val) : List (Str × Val) :=
  match m with
  | [] => [(k, v)]
  | (k2, v2) :: t => if k2 = k then (k2, v) :: t else (k2, v2) :: dictSet t k v

/-- search_all_sources: every adapter call is abstracted by `env` (adapter
name and argument to outcome); `order` is the completion order in which the
futures deliver their results (any permutation of the registered names). -/
def search_all_sources (query : Str) (env : Str → Str → Except Str Val)
    (order : List Str) : List (Str × Val) :=
  order.foldl (fun acc n =>
    let r := safe_search n (env n (adapterArg query n))
    dictSet acc r.1 r.2) []

/-- Association-list lookup for the aggregate mapping. -/
def lookupA : List (Str × Val) → Str → Option Val
  | [], _ => Option.none
  | (k, v) :: t, key => if k = key then some v else lookupA t key

/-! ## Result formatting -/

/-- Python ", ".join over a list value, elements rendered as str. -/
def joinVals (sep : Str) (v : Val) : Str := pyJoin sep ((toList v).map pyStr)

/-- Python format spec `:,` applied to a value. -/
def fmtComma : Val → Str
  | .i n => intComma n
  | v => pyStr v

/-- The duckduckgo_instant section of format_results. -/
def fmtInstant (results : List (Str × Val)) : List Str :=
  match lookupA results "duckduckgo_instant".S with
  | Option.none => []
  | some instant =>
    if isDictV instant && truthy (pyGet instant "answer".S Val.none) then
      ["### 💡 Quick Answer\n".S ++ pyStr (pyGet instant "answer".S Val.none) ++ "\n".S]
    else []

/-- The wikipedia section of format_results. -/
def fmtWikipedia (results : List (Str × Val)) : List Str :=
  match lookupA results "wikipedia".S with
  | Option.none => []
  | some wiki =>
    if isDictV wiki && truthy (pyGet wiki "exists".S Val.none) then
      ["### 📚 Wikipedia: ".S ++ pyStr (pyGet wiki "title".S (Val.s "N/A".S)),
       pySlice (pyGet wiki "summary".S (Val.s "No summary".S)) 500 ++ "...".S,
       "[Read more](".S ++ pyStr (pyGet wiki "url".S (Val.s [])) ++ ")\n".S]
    else []

/-- The lines emitted for one duckduckgo web result. -/
def duckItemLines (item : Val) : List Str :=
  if isDictV item then
    ["- **".S ++ pyStr (pyGet item "title".S (Val.s "N/A".S)) ++ "**".S,
     "  ".S ++ pySlice (pyGet item "body".S (Val.s [])) 150 ++ "...".S] ++
    (if truthy (pyGet item "href".S Val.none) then
      ["  [Link](".S ++ pyStr (pyGet item "href".S Val.none) ++ ")".S]
     else [])
  else []

/-- The duckduckgo section of format_results. -/
def fmtDuck (results : List (Str × Val)) : List Str :=
  match lookupA results "duckduckgo".S with
  | Option.none => []
  | some ddg =>
    if isListV ddg && truthy ddg &&
        !(isSubstr "error".S (pyStr (vIndex0D ddg Val.none))) then
      "### 🌐 Web Results".S ::
        (((toList ddg).take 3).map duckItemLines).flatten ++ [[]]
    else []

/-- The lines emitted for one arXiv paper. -/
def arxivItemLines (paper : Val) : List Str :=
  if isDictV paper && truthy (pyGet paper "title".S Val.none) then
    ["- **".S ++ pyStr (pyGet paper "title".S (Val.s "N/A".S)) ++ "**".S,
     "  Authors: ".S ++ joinVals ", ".S (vTake 2 (pyGet paper "authors".S Val.nil)) ++
       " | Published: ".S ++ pyStr (pyGet paper "published".S (Val.s "N/A".S)),
     "  ".S ++ pySlice (pyGet paper "summary".S (Val.s [])) 200 ++ "...".S] ++
    (if truthy (pyGet paper "url".S Val.none) then
      ["  [View Paper](".S ++ pyStr (pyGet paper "url".S Val.none) ++ ")".S]
     else [])
  else []

/-- The arxiv section of format_results. -/
def fmtArxiv (results : List (Str × Val)) : List Str :=
  match lookupA results "arxiv".S with
  | Option.none => []
  | some arxiv_data =>
    if isListV arxiv_data && truthy arxiv_data &&
        !(isSubstr "error".S (pyStr (vIndex0D arxiv_data Val.none))) &&
        !(isSubstr "message".S (pyStr (vIndex0D arxiv_data Val.none))) then
      "### 🔬 Scientific Papers (ArXiv)".S ::
        (((toList arxiv_data).take 3).map arxivItemLines).flatten ++ [[]]
    else []

/-- The lines emitted for one PubMed article. -/
def pubmedItemLines (article : Val) : List Str :=
  if isDictV article && truthy (pyGet article "title".S Val.none) then
    ["- **".S ++ pyStr (pyGet article "title".S (Val.s "N/A".S)) ++ "**".S,
     "  Authors: ".S ++ joinVals ", ".S (vTake 2 (pyGet article "authors".S Val.nil)) ++
       " | Year: ".S ++ pyStr (pyGet article "year".S (Val.s "N/A".S)),
     "  ".S ++ pySlice (pyGet article "abstract".S (Val.s [])) 200 ++ "...".S] ++
    (if truthy (pyGet article "url".S Val.none) then
      ["  [View Article](".S ++ pyStr (pyGet article "url".S Val.none) ++ ")".S]
     else [])
  else []

/-- The pubmed section of format_results. -/
def fmtPubmed (results : List (Str × Val)) : List Str :=
  match lookupA results "pubmed".S with
  | Option.none => []
  | some pubmed_data =>
    if isListV pubmed_data && truthy pubmed_data &&
        !(isSubstr "error".S (pyStr (vIndex0D pubmed_data Val.none))) &&
        !(isSubstr "message".S (pyStr (vIndex0D pubmed_data Val.none))) then
      "### 🏥 Medical Research (PubMed)".S ::
        (((toList pubmed_data).take 3).map pubmedItemLines).flatten ++ [[]]
    else []

/-- The lines emitted for one book. -/
def bookItemLines (book : Val) : List Str :=
  if isDictV book && truthy (pyGet book "title".S Val.none) then
    ["- **".S ++ pyStr (pyGet book "title".S (Val.s "N/A".S)) ++ "**".S,
     "  Authors: ".S ++ joinVals ", ".S (vTake 2 (pyGet book "authors".S Val.nil)) ++
       " | First Published: ".S ++ pyStr (pyGet book "first_publish_year".S (Val.s "N/A".S))] ++
    (if truthy (pyGet book "url".S Val.none) then
      ["  [View Book](".S ++ pyStr (pyGet book "url".S Val.none) ++ ")".S]
     else [])
  else []

/-- The books section of format_results. -/
def fmtBooks (results : List (Str × Val)) : List Str :=
  match lookupA results "books".S with
  | Option.none => []
  | some books_data =>
    if isListV books_data && truthy books_data &&
        !(isSubstr "error".S (pyStr (vIndex0D books_data Val.none))) &&
        !(isSubstr "message".S (pyStr (vIndex0D books_data Val.none))) then
      "### 📖 Books (OpenLibrary)".S ::
        (((toList books_data).take 3).map bookItemLines).flatten ++ [[]]
    else []

/-- The lines emitted for one wikidata entity. -/
def wikidataItemLines (entity : Val) : List Str :=
  if isDictV entity && truthy (pyGet entity "label".S Val.none) then
    ["- **".S ++ pyStr (pyGet entity "label".S (Val.s "N/A".S)) ++ "**: ".S ++
       pyStr (pyGet entity "description".S (Val.s "No description".S))] ++
    (if truthy (pyGet entity "url".S Val.none) then
      ["  [View](".S ++ pyStr (pyGet entity "url".S Val.none) ++ ")".S]
     else [])
  else []

/-- The wikidata section of format_results. -/
def fmtWikidata (results : List (Str × Val)) : List Str :=
  match lookupA results "wikidata".S with
  | Option.none => []
  | some wikidata =>
    if isListV wikidata && truthy wikidata &&
        !(isSubstr "error".S (pyStr (vIndex0D wikidata Val.none))) &&
        !(isSubstr "message".S (pyStr (vIndex0D wikidata Val.none))) then
      "### 🗃️ Wikidata Entities".S ::
        (((toList wikidata).take 3).map wikidataItemLines).flatten ++ [[]]
    else []

/-- The weather section of format_results. -/
def fmtWeather (results : List (Str × Val)) : List Str :=
  match lookupA results "weather".S with
  | Option.none => []
  | some weather =>
    if isDictV weather && !(hasKey weather "error".S) &&
        truthy (pyGet weather "temperature_c".S Val.none) then
      ["### 🌤️ Weather".S,
       "- Location: ".S ++ pyStr (pyGet weather "location".S (Val.s "N/A".S)),
       "- Temperature: ".S ++ pyStr (pyGet weather "temperature_c".S (Val.s "N/A".S)) ++
         "°C / ".S ++ pyStr (pyGet weather "temperature_f".S (Val.s "N/A".S)) ++ "°F".S,
       "- Condition: ".S ++ pyStr (pyGet weather "condition".S (Val.s "N/A".S)),
       "- Humidity: ".S ++ pyStr (pyGet weather "humidity".S (Val.s "N/A".S)) ++ "%".S,
       []]
    else []

/-- The measurement lines of one air-quality location. -/
def aqLocLines (loc : Val) : List Str :=
  ("- Location: ".S ++ pyStr (pyGet loc "location".S (Val.s "N/A".S))) ::
    ((toList (pyGet loc "measurements".S Val.nil)).take 3).map (fun m =>
      "  - ".S ++ pyStr (pyGet m "parameter".S (Val.s "N/A".S)) ++ ": ".S ++
        pyStr (pyGet m "value".S (Val.s "N/A".S)) ++ " ".S ++
        pyStr (pyGet m "unit".S (Val.s [])))

/-- The air_quality section of format_results. -/
def fmtAirQuality (results : List (Str × Val)) : List Str :=
  match lookupA results "air_quality".S with
  | Option.none => []
  | some aq =>
    if isDictV aq && !(hasKey aq "error".S) && truthy (pyGet aq "data".S Val.none) then
      ["### 🌬️ Air Quality".S,
       "- City: ".S ++ pyStr (pyGet aq "city".S (Val.s "N/A".S))] ++
      (((toList (pyGet aq "data".S Val.nil)).take 2).map aqLocLines).flatten ++ [[]]
    else []

/-- The geocoding section of format_results. -/
def fmtGeocoding (results : List (Str × Val)) : List Str :=
  match lookupA results "geocoding".S with
  | Option.none => []
  | some geo =>
    if isDictV geo && !(hasKey geo "error".S) &&
        truthy (pyGet geo "display_name".S Val.none) then
      ["### 📍 Location Info".S,
       "- ".S ++ pyStr (pyGet geo "display_name".S (Val.s "N/A".S)),
       "- Coordinates: ".S ++ pyStr (pyGet geo "latitude".S (Val.s "N/A".S)) ++ ", ".S ++
         pyStr (pyGet geo "longitude".S (Val.s "N/A".S))] ++
      (if truthy (pyGet geo "osm_url".S Val.none) then
        ["- [View on Map](".S ++ pyStr (pyGet geo "osm_url".S Val.none) ++ ")".S]
       else []) ++ [[]]
    else []

/-- The lines emitted for one news article. -/
def newsItemLines (article : Val) : List Str :=
  if isDictV article && truthy (pyGet article "title".S Val.none) then
    ["- **".S ++ pyStr (pyGet article "title".S (Val.s "N/A".S)) ++ "**".S] ++
    (if truthy (pyGet article "source".S Val.none) then
      ["  Source: ".S ++ pyStr (pyGet article "source".S Val.none) ++ " | ".S ++
         pyStr (pyGet article "date".S (Val.s []))]
     else []) ++
    ["  ".S ++ pySlice (pyGet article "body".S (Val.s [])) 150 ++ "...".S] ++
    (if truthy (pyGet article "url".S Val.none) then
      ["  [Read Article](".S ++ pyStr (pyGet article "url".S Val.none) ++ ")".S]
     else [])
  else []

/-- The news section of format_results. -/
def fmtNews (results : List (Str × Val)) : List Str :=
  match lookupA results "news".S with
  | Option.none => []
  | some news_data =>
    if isListV news_data && truthy news_data &&
        !(isSubstr "error".S (pyStr (vIndex0D news_data Val.none))) &&
        !(isSubstr "message".S (pyStr (vIndex0D news_data Val.none))) then
      "### 📰 News".S ::
        (((toList news_data).take 3).map newsItemLines).flatten ++ [[]]
    else []

/-- The lines of one dictionary definition entry. -/
def dictDefnLines (defn : Val) : List Str :=
  ("- ".S ++ pyStr (pyGet defn "definition".S (Val.s []))) ::
    (if truthy (pyGet defn "example".S Val.none) then
      ["  *Example: \"".S ++ pyStr (pyGet defn "example".S Val.none) ++ "\"*".S]
     else [])

/-- The definition lines of one dictionary meaning. -/
def dictMeaningLines (meaning : Val) : List Str :=
  ("**".S ++ pyStr (pyGet meaning "part_of_speech".S (Val.s [])) ++ "**".S) ::
    (((toList (pyGet meaning "definitions".S Val.nil)).take 2).map dictDefnLines).flatten

/-- The dictionary section of format_results. -/
def fmtDictionary (results : List (Str × Val)) : List Str :=
  match lookupA results "dictionary".S with
  | Option.none => []
  | some dictionary =>
    if isDictV dictionary && !(hasKey dictionary "error".S) &&
        !(hasKey dictionary "message".S) && truthy (pyGet dictionary "word".S Val.none) then
      ("### 📖 Dictionary: ".S ++ pyStr (pyGet dictionary "word".S (Val.s "N/A".S))) ::
      (if truthy (pyGet dictionary "phonetics".S Val.nil) then
        ["*Pronunciation: ".S ++ joinVals ", ".S (pyGet dictionary "phonetics".S Val.nil) ++ "*".S]
       else []) ++
      (((toList (pyGet dictionary "meanings".S Val.nil)).take 2).map dictMeaningLines).flatten ++
      [[]]
    else []

/-- The country section of format_results. -/
def fmtCountry (results : List (Str × Val)) : List Str :=
  match lookupA results "country".S with
  | Option.none => []
  | some country =>
    if isDictV country && !(hasKey country "error".S) &&
        !(hasKey country "message".S) && truthy (pyGet country "name".S Val.none) then
      ["### 🌍 Country: ".S ++ pyStr (pyGet country "name".S (Val.s "N/A".S)) ++ " ".S ++
         pyStr (pyGet country "flag_emoji".S (Val.s [])),
       "- **Official Name**: ".S ++ pyStr (pyGet country "official_name".S (Val.s "N/A".S)),
       "- **Capital**: ".S ++ pyStr (pyGet country "capital".S (Val.s "N/A".S)),
       "- **Region**: ".S ++ pyStr (pyGet country "region".S (Val.s "N/A".S)) ++ " / ".S ++
         pyStr (pyGet country "subregion".S (Val.s "N/A".S))] ++
      (match pyGet country "population".S (Val.s "N/A".S) with
       | Val.i n => ["- **Population**: ".S ++ intComma n]
       | pop => ["- **Population**: ".S ++ pyStr pop]) ++
      (if truthy (pyGet country "languages".S Val.nil) then
        ["- **Languages**: ".S ++ joinVals ", ".S (vTake 3 (pyGet country "languages".S Val.nil))]
       else []) ++
      (if truthy (pyGet country "currencies".S Val.nil) then
        ["- **Currencies**: ".S ++ joinVals ", ".S (vTake 2 (pyGet country "currencies".S Val.nil))]
       else []) ++
      (if truthy (pyGet country "map_url".S Val.none) then
        ["- [View on Map](".S ++ pyStr (pyGet country "map_url".S Val.none) ++ ")".S]
       else []) ++ [[]]
    else []

/-- The lines emitted for one quote. -/
def quoteItemLines (quote : Val) : List Str :=
  if isDictV quote && truthy (pyGet quote "content".S Val.none) then
    ["> \"".S ++ pyStr (pyGet quote "content".S (Val.s [])) ++ "\"".S,
     "> — *".S ++ pyStr (pyGet quote "author".S (Val.s "Unknown".S)) ++ "*".S,
     []]
  else []

/-- The quotes section of format_results. -/
def fmtQuotes (results : List (Str × Val)) : List Str :=
  match lookupA results "quotes".S with
  | Option.none => []
  | some quotes_data =>
    if isListV quotes_data && truthy quotes_data &&
        !(isSubstr "error".S (pyStr (vIndex0D quotes_data Val.none))) &&
        !(isSubstr "message".S (pyStr (vIndex0D quotes_data Val.none))) then
      "### 💬 Quotes".S :: (((toList quotes_data).take 3).map quoteItemLines).flatten
    else []

/-- The lines emitted for one GitHub repository. -/
def repoItemLines (repo : Val) : List Str :=
  if isDictV repo && truthy (pyGet repo "name".S Val.none) then
    ["- **".S ++ pyStr (pyGet repo "name".S (Val.s "N/A".S)) ++ "** ⭐ ".S ++
       fmtComma (pyGet repo "stars".S (Val.i 0)),
     "  ".S ++ pySlice (pyGet repo "description".S (Val.s "No description".S)) 100 ++ "...".S,
     "  Language: ".S ++ pyStr (pyGet repo "language".S (Val.s "N/A".S)) ++ " | Forks: ".S ++
       fmtComma (pyGet repo "forks".S (Val.i 0))] ++
    (if truthy (pyGet repo "url".S Val.none) then
      ["  [View Repository](".S ++ pyStr (pyGet repo "url".S Val.none) ++ ")".S]
     else [])
  else []

/-- The github section of format_results. -/
def fmtGithub (results : List (Str × Val)) : List Str :=
  match lookupA results "github".S with
  | Option.none => []
  | some github_data =>
    if isListV github_data && truthy github_data &&
        !(isSubstr "error".S (pyStr (vIndex0D github_data Val.none))) &&
        !(isSubstr "message".S (pyStr (vIndex0D github_data Val.none))) then
      "### 💻 GitHub Repositories".S ::
        (((toList github_data).take 3).map repoItemLines).flatten ++ [[]]
    else []

/-- The lines emitted for one Stack Overflow question. -/
def soItemLines (q : Val) : List Str :=
  if isDictV q && truthy (pyGet q "title".S Val.none) then
    ["- ".S ++ (if truthy (pyGet q "is_answered".S Val.none) then "✅".S else "❓".S) ++
       " **".S ++ pyStr (pyGet q "title".S (Val.s "N/A".S)) ++ "**".S,
     "  Score: ".S ++ pyStr (pyGet q "score".S (Val.i 0)) ++ " | Answers: ".S ++
       pyStr (pyGet q "answer_count".S (Val.i 0)) ++ " | Views: ".S ++
       fmtComma (pyGet q "view_count".S (Val.i 0))] ++
    (if truthy (vTake 3 (pyGet q "tags".S Val.nil)) then
      ["  Tags: ".S ++ joinVals ", ".S (vTake 3 (pyGet q "tags".S Val.nil))]
     else []) ++
    (if truthy (pyGet q "url".S Val.none) then
      ["  [View Question](".S ++ pyStr (pyGet q "url".S Val.none) ++ ")".S]
     else [])
  else []

/-- The stackoverflow section of format_results. -/
def fmtStackoverflow (results : List (Str × Val)) : List Str :=
  match lookupA results "stackoverflow".S with
  | Option.none => []
  | some so_data =>
    if isListV so_data && truthy so_data &&
        !(isSubstr "error".S (pyStr (vIndex0D so_data Val.none))) &&
        !(isSubstr "message".S (pyStr (vIndex0D so_data Val.none))) then
      "### 🔧 Stack Overflow".S ::
        (((toList so_data).take 3).map soItemLines).flatten ++ [[]]
    else []

/-- format_results: the header line followed by the per-source sections in
the fixed declaration order of the source, joined by newlines. -/
def format_results (query : Str) (results : List (Str × Val)) : Str :=
  pyJoin "\n".S
    (("## Search Results for: *".S ++ query ++ "*\n".S) ::
      (fmtInstant results ++ fmtWikipedia results ++ fmtDuck results ++
       fmtArxiv results ++ fmtPubmed results ++ fmtBooks results ++
       fmtWikidata results ++ fmtWeather results ++ fmtAirQuality results ++
       fmtGeocoding results ++ fmtNews results ++ fmtDictionary results ++
       fmtCountry results ++ fmtQuotes results ++ fmtGithub results ++
       fmtStackoverflow results))

/-! ## Definitions used by the verification statements -/

/-- A record that is exactly a one-field error marker. -/
def isErrMarkerV : Val → Bool
  | .dcons k _ .dnil => decide (k = "error".S)
  | _ => false

/-- A well-formed record: either a pure error marker, or a record carrying
no reserved "error" key at all. -/
def recOK (v : Val) : Bool := isErrMarkerV v || !(hasKey v "error".S)

/-- Every record of a SourceResult is well-formed (top-level records of a
list result, or the single record of a dictionary result). -/
def srcOK : Val → Bool
  | .nil => true
  | .cons h t => recOK h && srcOK t
  | v => recOK v

/-- The value the aggregator stores for one source, as a function of the
abstracted adapter behaviour. -/
def outcomeOf (query : Str) (env : Str → Str → Except Str Val) (n : Str) : Val :=
  match env n (adapterArg query n) with
  | .ok v => v
  | .error e => errRec e

/-- The sources whose SourceResult is list-shaped. -/
def listSources : List Str :=
  ["arxiv".S, "duckduckgo".S, "news".S, "wikidata".S, "books".S, "pubmed".S,
   "quotes".S, "github".S, "stackoverflow".S]

/-- The adapter behaviour in which every adapter fails and returns its own
error marker (list-shaped sources return a one-element error list). -/
def envAllFail (msg : Str) : Str → Str → Except Str Val :=
  fun n _ =>
    Except.ok (if listSources.contains n then VL [errRec msg] else errRec msg)

/-- The first line of a document (up to the first newline). -/
def firstLine (l : Str) : Str := l.takeWhile (fun c => decide (c ≠ 10))

/-- A string without newlines. -/
def noNL (l : Str) : Bool := l.all (fun c => decide (c ≠ 10))

/-- Python str.endswith. -/
def endsWith (l p : Str) : Bool := startsWith l.reverse p.reverse

/-- The header line emitted by format_results (including its embedded
trailing newline). -/
def headerFor (query : Str) : Str := "## Search Results for: *".S ++ query ++ "*\n".S

/-! ## Helper lemmas -/

theorem startsWith_append_self (p r : Str) : startsWith (p ++ r) p = true := by
  induction p with
  | nil =>
    show startsWith r [] = true
    cases r <;> rfl
  | cons c cs ih => simp [startsWith, ih]

theorem startsWith_refl (p : Str) : startsWith p p = true := by
  simpa using startsWith_append_self p []

theorem isSubstr_cons_of (p l : Str) (c : Nat) (h : isSubstr p l = true) :
    isSubstr p (c :: l) = true := by
  simp [isSubstr, h]

theorem isSubstr_self_append (p r : Str) : isSubstr p (p ++ r) = true := by
  cases p with
  | nil => cases r <;> simp [isSubstr, startsWith]
  | cons q qs =>
    show isSubstr (q :: qs) (q :: (qs ++ r)) = true
    simp [isSubstr, startsWith, startsWith_append_self]

theorem pyStr_errRec_has_error (m : Str) :
    isSubstr ("error".S) (pyStr (errRec m)) = true := rfl

/-- Claim C3: detect_mode is total and deterministic over the closed mode
set: every query maps to exactly one of search, chat, deep_think (totality
and determinism are immediate since the embedding is a function); on the
concrete inputs, "hi there" is chat, "capital of France" is search,
"what is the meaning of life" is deep_think although it also matches the
search keyword set (the deep-think phrase is checked first), and the
one-word input "Python" matches none of the keyword sets and is classified
search by the short-query fallback. -/
theorem C3_detect_mode_total_and_concrete :
    (∀ q : Str, detect_mode q = Mode.search ∨ detect_mode q = Mode.chat ∨
      detect_mode q = Mode.deep_think) ∧
    detect_mode ("".S) = Mode.search ∧
    detect_mode ("hello".S) = Mode.chat ∧
    detect_mode ("what is the capital of France".S) = Mode.search ∧
    detect_mode ("what if consciousness is an illusion".S) = Mode.deep_think ∧
    detect_mode ("hi there".S) = Mode.chat ∧
    detect_mode ("capital of France".S) = Mode.search ∧
    detect_mode ("what is the meaning of life".S) = Mode.deep_think ∧
    hitsAny (strip (pyLower ("what is the meaning of life".S))) deep_think_keywords = true ∧
    hitsAny (strip (pyLower ("what is the meaning of life".S))) search_keywords = true ∧
    detect_mode ("Python".S) = Mode.search ∧
    hitsAny (strip (pyLower ("Python".S))) deep_think_keywords = false ∧
    hitsAny (strip (pyLower ("Python".S))) search_keywords = false ∧
    hitsAny (strip (pyLower ("Python".S))) chat_keywords = false ∧
    (pySplit (strip (pyLower ("Python".S)))).length ≤ 2 := by
  constructor
  · intro q
    cases h : detect_mode q
    · exact Or.inl rfl
    · exact Or.inr (Or.inl rfl)
    · exact Or.inr (Or.inr rfl)
  · decide

/-- Claim C4: detect_mode tests the keyword sets in the fixed priority
order deep-think, search, chat (first match winning) and then applies the
structural fallbacks in fixed order, as stated by the specification: the
classifier equals the reference classifier written from the words of the
specification. -/
theorem C4_detect_mode_priority_structure (q : Str) :
    detect_mode q = detectModeSpecC4 q := by
  simp only [detect_mode, detectCore, detectModeSpecC4]
  by_cases h1 : hitsAny (strip (pyLower q)) deep_think_keywords = true
  · simp [h1]
  · by_cases h2 : hitsAny (strip (pyLower q)) search_keywords = true
    · simp [h1, h2]
    · by_cases h3 : hitsAny (strip (pyLower q)) chat_keywords = true
      · simp [h1, h2, h3]
      · by_cases h4 : (pySplit (strip (pyLower q))).length ≤ 2
        · simp [h1, h2, h3, h4]
        · by_cases h5 : question_words.any (fun w => startsWith (strip (pyLower q)) w) = true
          · simp [h1, h2, h3, h4, h5]
          · by_cases h6 : containsCh q 63 = true
            · by_cases h7 :
                conversational_patterns.any (fun p => isSubstr p (strip (pyLower q))) = true
              · simp [h1, h2, h3, h4, h5, h6, h7]
              · simp [h1, h2, h3, h4, h5, h6, h7]
            · simp [h1, h2, h3, h4, h5, h6]

theorem lowerN_upperN (c : Nat) : lowerN (upperN c) = lowerN c := by
  simp only [lowerN, upperN]
  split_ifs <;> omega

theorem pyLower_map_upperN (q : Str) : pyLower (q.map upperN) = pyLower q := by
  induction q with
  | nil => rfl
  | cons c cs ih =>
    show lowerN (upperN c) :: pyLower (cs.map upperN) = lowerN c :: pyLower cs
    rw [lowerN_upperN, ih]

theorem decide_upperN_63 (c : Nat) : decide (upperN c = 63) = decide (c = 63) := by
  simp only [upperN]
  split_ifs with h
  · have h1 : c - 32 ≠ 63 := by omega
    have h2 : c ≠ 63 := by omega
    simp [h1, h2]
  · rfl

theorem containsCh_map_upperN (q : Str) :
    containsCh (q.map upperN) 63 = containsCh q 63 := by
  induction q with
  | nil => rfl
  | cons c cs ih =>
    show (decide (upperN c = 63) || containsCh (cs.map upperN) 63) = _
    rw [decide_upperN_63, ih]
    rfl

theorem upperCh_ascii (c : Nat) (h : c < 128) : upperCh c = [upperN c] := by
  simp only [upperCh, upperN]
  split_ifs with h1 h2
  · rfl
  · exfalso
    omega
  · rfl

theorem pyUpper_ascii (q : Str) (hq : ∀ c ∈ q, c < 128) :
    pyUpper q = q.map upperN := by
  induction q with
  | nil => rfl
  | cons c cs ih =>
    show upperCh c ++ pyUpper cs = upperN c :: cs.map upperN
    rw [upperCh_ascii c (hq c (by simp)), ih (fun x hx => hq x (by simp [hx])),
        List.singleton_append]

theorem pySpace_ne_63 (c : Nat) (h : pySpace c = true) : decide (c = 63) = false := by
  simp only [pySpace, decide_eq_true_eq] at h
  rcases h with h | h | h | h | h | h <;> subst h <;> rfl

theorem lowerN_space (c : Nat) (h : pySpace c = true) : lowerN c = c := by
  simp only [pySpace, decide_eq_true_eq] at h
  rcases h with h | h | h | h | h | h <;> subst h <;> rfl

theorem pyLower_all_space (ws : Str) (h : ∀ c ∈ ws, pySpace c = true) :
    pyLower ws = ws := by
  induction ws with
  | nil => rfl
  | cons c cs ih =>
    show lowerN c :: pyLower cs = c :: cs
    rw [lowerN_space c (h c (by simp)), ih (fun x hx => h x (by simp [hx]))]

theorem containsCh_append (a b : Str) (c : Nat) :
    containsCh (a ++ b) c = (containsCh a c || containsCh b c) := by
  simp [containsCh, List.any_append]

theorem pyLower_append (a b : Str) : pyLower (a ++ b) = pyLower a ++ pyLower b := by
  simp [pyLower]

theorem containsCh_all_space (l : Str) (h : ∀ c ∈ l, pySpace c = true) :
    containsCh l 63 = false := by
  induction l with
  | nil => rfl
  | cons c cs ih =>
    show (decide (c = 63) || containsCh cs 63) = false
    rw [pySpace_ne_63 c (h c (by simp)), ih (fun x hx => h x (by simp [hx]))]
    rfl

theorem dropWhile_append_of_all (p : Nat → Bool) (a l : Str)
    (h : ∀ c ∈ a, p c = true) :
    List.dropWhile p (a ++ l) = List.dropWhile p l := by
  induction a with
  | nil => rfl
  | cons c cs ih =>
    rw [List.cons_append, List.dropWhile_cons, h c (by simp)]
    exact ih (fun x hx => h x (by simp [hx]))

theorem dropWhile_all_nil (p : Nat → Bool) (l : Str) (h : ∀ c ∈ l, p c = true) :
    List.dropWhile p l = [] := by
  induction l with
  | nil => rfl
  | cons c cs ih =>
    rw [List.dropWhile_cons, h c (by simp)]
    exact ih (fun x hx => h x (by simp [hx]))

theorem dropWhile_append_of_ne_nil (p : Nat → Bool) (a l : Str)
    (h : List.dropWhile p a ≠ []) :
    List.dropWhile p (a ++ l) = List.dropWhile p a ++ l := by
  induction a with
  | nil => simp [List.dropWhile] at h
  | cons c cs ih =>
    by_cases hc : p c = true
    · simp only [List.cons_append, List.dropWhile_cons, hc, if_true] at h ⊢
      exact ih h
    · have hc2 : p c = false := by simpa using hc
      simp [List.cons_append, List.dropWhile_cons, hc2]

theorem strip_append_right (x ws : Str) (h : ∀ c ∈ ws, pySpace c = true) :
    strip (x ++ ws) = strip x := by
  unfold strip
  by_cases hx : List.dropWhile pySpace x = []
  · have hall : ∀ c ∈ x, pySpace c = true := by
      intro c hc
      exact List.dropWhile_eq_nil_iff.mp hx c hc
    have h2 : List.dropWhile pySpace (x ++ ws) = [] := by
      apply dropWhile_all_nil
      intro c hc
      rcases List.mem_append.mp hc with hc | hc
      · exact hall c hc
      · exact h c hc
    rw [h2, hx]
  · rw [dropWhile_append_of_ne_nil _ _ _ hx, List.reverse_append,
        dropWhile_append_of_all]
    intro c hc
    exact h c (List.mem_reverse.mp hc)

theorem strip_pad (ws1 x ws2 : Str) (h1 : ∀ c ∈ ws1, pySpace c = true)
    (h2 : ∀ c ∈ ws2, pySpace c = true) :
    strip (ws1 ++ x ++ ws2) = strip x := by
  have e1 : strip (ws1 ++ (x ++ ws2)) = strip (x ++ ws2) := by
    unfold strip
    rw [dropWhile_append_of_all _ _ _ h1]
  rw [List.append_assoc, e1, strip_append_right _ _ h2]

/-- Counterexample for C9 as stated: upper-casing is not a letter-wise
operation in Python.  The sharp s upper-cases to SS, so the query
"aßeß xyz abc" (classified chat: no keyword matches, three words, no
interrogative start, no question mark) upper-cases to "ASSESS XYZ ABC",
whose lower-cased form starts with the deep-think keyword "assess" and is
classified deep_think.  detect_mode is therefore not invariant under
upper-casing for every query string. -/
theorem C9_case_counterexample :
    detect_mode ("aßeß xyz abc".S) = Mode.chat ∧
    pyUpper ("aßeß xyz abc".S) = "ASSESS XYZ ABC".S ∧
    detect_mode (pyUpper ("aßeß xyz abc".S)) = Mode.deep_think ∧
    ¬ (detect_mode (pyUpper ("aßeß xyz abc".S)) =
        detect_mode ("aßeß xyz abc".S)) := by decide

/-- Claim C9 (amended): for queries made of ASCII code points, detect_mode
is invariant under upper-casing (on ASCII the full case mapping is
letter-wise and the lower-cased stripped query is unchanged); and for every
query string, detect_mode is invariant under padding with leading and
trailing whitespace, since classification reads the stripped query and the
only use of the raw query (the question-mark test) ignores whitespace. -/
theorem C9_detect_mode_invariance (q ws1 ws2 : Str)
    (h1 : ∀ c ∈ ws1, pySpace c = true) (h2 : ∀ c ∈ ws2, pySpace c = true) :
    ((∀ c ∈ q, c < 128) → detect_mode (pyUpper q) = detect_mode q) ∧
    detect_mode (ws1 ++ q ++ ws2) = detect_mode q := by
  constructor
  · intro hq
    rw [pyUpper_ascii q hq]
    show detectCore (strip (pyLower (q.map upperN))) (containsCh (q.map upperN) 63) = _
    rw [pyLower_map_upperN, containsCh_map_upperN]
    rfl
  · show detectCore (strip (pyLower (ws1 ++ q ++ ws2)))
        (containsCh (ws1 ++ q ++ ws2) 63) = _
    have e1 : pyLower (ws1 ++ q ++ ws2) = ws1 ++ pyLower q ++ ws2 := by
      rw [pyLower_append, pyLower_append, pyLower_all_space ws1 h1,
          pyLower_all_space ws2 h2]
    have e2 : containsCh (ws1 ++ q ++ ws2) 63 = containsCh q 63 := by
      rw [containsCh_append, containsCh_append, containsCh_all_space ws1 h1,
          containsCh_all_space ws2 h2]
      simp
    rw [e1, e2, strip_pad ws1 (pyLower q) ws2 h1 h2]
    rfl

/-- Witness for C9 (amended) at a concrete ASCII query and concrete
whitespace padding. -/
theorem C9_detect_mode_invariance_witness :
    (∀ c ∈ [32, 9], pySpace c = true) ∧ (∀ c ∈ [32], pySpace c = true) ∧
    (∀ c ∈ "please tell me a story".S, c < 128) ∧
    detect_mode (pyUpper ("please tell me a story".S)) =
      detect_mode ("please tell me a story".S) ∧
    detect_mode ([32, 9] ++ "please tell me a story".S ++ [32]) =
      detect_mode ("please tell me a story".S) :=
  ⟨by decide, by decide, by decide,
   (C9_detect_mode_invariance ("please tell me a story".S) [32, 9] [32]
     (by decide) (by decide)).1 (by decide),
   (C9_detect_mode_invariance ("please tell me a story".S) [32, 9] [32]
     (by decide) (by decide)).2⟩

theorem dictSet_absent (m : List (Str × Val)) (k : Str) (v : Val)
    (h : lookupA m k = Option.none) : dictSet m k v = m ++ [(k, v)] := by
  induction m with
  | nil => rfl
  | cons p t ih =>
    obtain ⟨k2, v2⟩ := p
    by_cases hk : k2 = k
    · simp [lookupA, hk] at h
    · simp only [lookupA, if_neg hk] at h
      simp only [dictSet, if_neg hk]
      rw [ih h, List.cons_append]

theorem lookupA_append_left_none (a b : List (Str × Val)) (k : Str)
    (h : lookupA a k = Option.none) : lookupA (a ++ b) k = lookupA b k := by
  induction a with
  | nil => rfl
  | cons p t ih =>
    obtain ⟨k2, v2⟩ := p
    by_cases hk : k2 = k
    · simp [lookupA, hk] at h
    · simp only [List.cons_append, lookupA, if_neg hk] at h ⊢
      exact ih h

theorem search_fold (query : Str) (env : Str → Str → Except Str Val) :
    ∀ (order : List Str) (acc : List (Str × Val)), order.Nodup →
      (∀ n ∈ order, lookupA acc n = Option.none) →
      List.foldl (fun acc n =>
        let r := safe_search n (env n (adapterArg query n))
        dictSet acc r.1 r.2) acc order =
      acc ++ order.map (fun n => (n, outcomeOf query env n)) := by
  intro order
  induction order with
  | nil => intro acc _ _; simp
  | cons n rest ih =>
    intro acc hnd hnone
    have e1 : (let r := safe_search n (env n (adapterArg query n))
        dictSet acc r.1 r.2) = dictSet acc n (outcomeOf query env n) := by
      cases h : env n (adapterArg query n) <;> simp [safe_search, outcomeOf, h]
    have e2 : dictSet acc n (outcomeOf query env n) =
        acc ++ [(n, outcomeOf query env n)] :=
      dictSet_absent _ _ _ (hnone n (by simp))
    have hn_rest : n ∉ rest := (List.nodup_cons.mp hnd).1
    have hrest : ∀ m ∈ rest,
        lookupA (acc ++ [(n, outcomeOf query env n)]) m = Option.none := by
      intro m hm
      rw [lookupA_append_left_none _ _ _ (hnone m (by simp [hm]))]
      have hmn : n ≠ m := fun hEq => hn_rest (hEq ▸ hm)
      simp [lookupA, hmn]
    calc List.foldl _ acc (n :: rest) =
        List.foldl _ (acc ++ [(n, outcomeOf query env n)]) rest := by
          rw [List.foldl_cons, e1, e2]
      _ = (acc ++ [(n, outcomeOf query env n)]) ++
            rest.map (fun n => (n, outcomeOf query env n)) :=
          ih _ (List.nodup_cons.mp hnd).2 hrest
      _ = acc ++ (n :: rest).map (fun n => (n, outcomeOf query env n)) := by
          simp

theorem search_all_sources_eq_map (query : Str) (env : Str → Str → Except Str Val)
    (order : List Str) (h : order.Nodup) :
    search_all_sources query env order =
      order.map (fun n => (n, outcomeOf query env n)) := by
  have := search_fold query env order [] h (fun n _ => rfl)
  simpa [search_all_sources] using this

theorem lookupA_map (f : Str → Val) (order : List Str) (n : Str)
    (hmem : n ∈ order) (hnd : order.Nodup) :
    lookupA (order.map (fun x => (x, f x))) n = some (f n) := by
  induction order with
  | nil => simp at hmem
  | cons k rest ih =>
    simp only [List.map_cons, lookupA]
    by_cases hk : k = n
    · subst hk; simp
    · rw [if_neg hk]
      have hmem2 : n ∈ rest := by
        rcases List.mem_cons.mp hmem with h2 | h2
        · exact absurd h2.symm hk
        · exact h2
      exact ih hmem2 (List.nodup_cons.mp hnd).2

/-- Claim C1: for every query (including the empty string) and every adapter
behaviour, aggregation over any completion order of the 16 registered
sources yields a mapping whose keys are exactly the 16 source names, the
entry of each source being the outcome the adapter-wrapper stored for it;
an adapter that throws still contributes an error-marker record under its
key, so no source is silently dropped. -/
theorem C1_aggregator_complete (query : Str) (env : Str → Str → Except Str Val)
    (order : List Str) (h : order.Perm sourceNames) :
    ((search_all_sources query env order).map Prod.fst).Perm sourceNames ∧
    (∀ n ∈ sourceNames,
      lookupA (search_all_sources query env order) n = some (outcomeOf query env n)) ∧
    (∀ n ∈ sourceNames, ∀ e, env n (adapterArg query n) = Except.error e →
      lookupA (search_all_sources query env order) n = some (errRec e)) := by
  have hnd : order.Nodup := h.nodup_iff.mpr (by decide)
  have heq := search_all_sources_eq_map query env order hnd
  refine ⟨?_, ?_, ?_⟩
  · rw [heq, List.map_map]
    have e : (Prod.fst ∘ fun n => (n, outcomeOf query env n)) = id := rfl
    rw [e, List.map_id]
    exact h
  · intro n hn
    rw [heq]
    exact lookupA_map _ order n (h.mem_iff.mpr hn) hnd
  · intro n hn e he
    rw [heq, lookupA_map _ order n (h.mem_iff.mpr hn) hnd]
    simp [outcomeOf, he]

/-- Witness for C1: the registry order itself, an environment in which every
adapter throws, and the empty query. -/
theorem C1_aggregator_complete_witness :
    sourceNames.Perm sourceNames ∧ "arxiv".S ∈ sourceNames ∧
    lookupA (search_all_sources [] (fun _ _ => Except.error ("down".S)) sourceNames)
      ("arxiv".S) = some (errRec ("down".S)) :=
  ⟨List.Perm.refl _, by decide,
    (C1_aggregator_complete [] (fun _ _ => Except.error ("down".S)) sourceNames
      (List.Perm.refl _)).2.2 ("arxiv".S) (by decide) ("down".S) rfl⟩

/-! Per-source section lemmas: an error-marker entry (either shape)
contributes no section to the formatted output. -/

theorem fmtInstant_err (results : List (Str × Val)) (m : Str)
    (h : lookupA results ("duckduckgo_instant".S) = some (errRec m) ∨
         lookupA results ("duckduckgo_instant".S) = some (VL [errRec m])) :
    fmtInstant results = [] := by
  rcases h with h | h <;> (unfold fmtInstant; rw [h]) <;> rfl

theorem fmtWikipedia_err (results : List (Str × Val)) (m : Str)
    (h : lookupA results ("wikipedia".S) = some (errRec m) ∨
         lookupA results ("wikipedia".S) = some (VL [errRec m])) :
    fmtWikipedia results = [] := by
  rcases h with h | h <;> (unfold fmtWikipedia; rw [h]) <;> rfl

theorem fmtDuck_err (results : List (Str × Val)) (m : Str)
    (h : lookupA results ("duckduckgo".S) = some (errRec m) ∨
         lookupA results ("duckduckgo".S) = some (VL [errRec m])) :
    fmtDuck results = [] := by
  rcases h with h | h <;> (unfold fmtDuck; rw [h]) <;> rfl

theorem fmtArxiv_err (results : List (Str × Val)) (m : Str)
    (h : lookupA results ("arxiv".S) = some (errRec m) ∨
         lookupA results ("arxiv".S) = some (VL [errRec m])) :
    fmtArxiv results = [] := by
  rcases h with h | h <;> (unfold fmtArxiv; rw [h]) <;> rfl

theorem fmtPubmed_err (results : List (Str × Val)) (m : Str)
    (h : lookupA results ("pubmed".S) = some (errRec m) ∨
         lookupA results ("pubmed".S) = some (VL [errRec m])) :
    fmtPubmed results = [] := by
  rcases h with h | h <;> (unfold fmtPubmed; rw [h]) <;> rfl

theorem fmtBooks_err (results : List (Str × Val)) (m : Str)
    (h : lookupA results ("books".S) = some (errRec m) ∨
         lookupA results ("books".S) = some (VL [errRec m])) :
    fmtBooks results = [] := by
  rcases h with h | h <;> (unfold fmtBooks; rw [h]) <;> rfl

theorem fmtWikidata_err (results : List (Str × Val)) (m : Str)
    (h : lookupA results ("wikidata".S) = some (errRec m) ∨
         lookupA results ("wikidata".S) = some (VL [errRec m])) :
    fmtWikidata results = [] := by
  rcases h with h | h <;> (unfold fmtWikidata; rw [h]) <;> rfl

theorem fmtWeather_err (results : List (Str × Val)) (m : Str)
    (h : lookupA results ("weather".S) = some (errRec m) ∨
         lookupA results ("weather".S) = some (VL [errRec m])) :
    fmtWeather results = [] := by
  rcases h with h | h <;> (unfold fmtWeather; rw [h]) <;> rfl

theorem fmtAirQuality_err (results : List (Str × Val)) (m : Str)
    (h : lookupA results ("air_quality".S) = some (errRec m) ∨
         lookupA results ("air_quality".S) = some (VL [errRec m])) :
    fmtAirQuality results = [] := by
  rcases h with h | h <;> (unfold fmtAirQuality; rw [h]) <;> rfl

theorem fmtGeocoding_err (results : List (Str × Val)) (m : Str)
    (h : lookupA results ("geocoding".S) = some (errRec m) ∨
         lookupA results ("geocoding".S) = some (VL [errRec m])) :
    fmtGeocoding results = [] := by
  rcases h with h | h <;> (unfold fmtGeocoding; rw [h]) <;> rfl

theorem fmtNews_err (results : List (Str × Val)) (m : Str)
    (h : lookupA results ("news".S) = some (errRec m) ∨
         lookupA results ("news".S) = some (VL [errRec m])) :
    fmtNews results = [] := by
  rcases h with h | h <;> (unfold fmtNews; rw [h]) <;> rfl

theorem fmtDictionary_err (results : List (Str × Val)) (m : Str)
    (h : lookupA results ("dictionary".S) = some (errRec m) ∨
         lookupA results ("dictionary".S) = some (VL [errRec m])) :
    fmtDictionary results = [] := by
  rcases h with h | h <;> (unfold fmtDictionary; rw [h]) <;> rfl

theorem fmtCountry_err (results : List (Str × Val)) (m : Str)
    (h : lookupA results ("country".S) = some (errRec m) ∨
         lookupA results ("country".S) = some (VL [errRec m])) :
    fmtCountry results = [] := by
  rcases h with h | h <;> (unfold fmtCountry; rw [h]) <;> rfl

theorem fmtQuotes_err (results : List (Str × Val)) (m : Str)
    (h : lookupA results ("quotes".S) = some (errRec m) ∨
         lookupA results ("quotes".S) = some (VL [errRec m])) :
    fmtQuotes results = [] := by
  rcases h with h | h <;> (unfold fmtQuotes; rw [h]) <;> rfl

theorem fmtGithub_err (results : List (Str × Val)) (m : Str)
    (h : lookupA results ("github".S) = some (errRec m) ∨
         lookupA results ("github".S) = some (VL [errRec m])) :
    fmtGithub results = [] := by
  rcases h with h | h <;> (unfold fmtGithub; rw [h]) <;> rfl

theorem fmtStackoverflow_err (results : List (Str × Val)) (m : Str)
    (h : lookupA results ("stackoverflow".S) = some (errRec m) ∨
         lookupA results ("stackoverflow".S) = some (VL [errRec m])) :
    fmtStackoverflow results = [] := by
  rcases h with h | h <;> (unfold fmtStackoverflow; rw [h]) <;> rfl

/-- Claim C2 (amended): when every adapter fails, aggregation still returns
an error marker under every source name, and format_results applied to that
all-error mapping returns the header-only document, with no source section,
rather than failing.  (The output does not contain any literal
"no results found" text; see the counterexample.) -/
theorem C2_all_adapters_fail (q msg : Str) (order : List Str)
    (h : order.Perm sourceNames) :
    (∀ n ∈ sourceNames,
      lookupA (search_all_sources q (envAllFail msg) order) n =
        some (if listSources.contains n then VL [errRec msg] else errRec msg)) ∧
    format_results q (search_all_sources q (envAllFail msg) order) = headerFor q := by
  have hnd : order.Nodup := h.nodup_iff.mpr (by decide)
  have heq := search_all_sources_eq_map q (envAllFail msg) order hnd
  have hlook : ∀ n ∈ sourceNames,
      lookupA (search_all_sources q (envAllFail msg) order) n =
        some (if listSources.contains n then VL [errRec msg] else errRec msg) := by
    intro n hn
    rw [heq, lookupA_map _ order n (h.mem_iff.mpr hn) hnd]
    rfl
  refine ⟨hlook, ?_⟩
  unfold format_results
  rw [fmtInstant_err _ msg (Or.inl (hlook _ (by decide))),
      fmtWikipedia_err _ msg (Or.inl (hlook _ (by decide))),
      fmtDuck_err _ msg (Or.inr (hlook _ (by decide))),
      fmtArxiv_err _ msg (Or.inr (hlook _ (by decide))),
      fmtPubmed_err _ msg (Or.inr (hlook _ (by decide))),
      fmtBooks_err _ msg (Or.inr (hlook _ (by decide))),
      fmtWikidata_err _ msg (Or.inr (hlook _ (by decide))),
      fmtWeather_err _ msg (Or.inl (hlook _ (by decide))),
      fmtAirQuality_err _ msg (Or.inl (hlook _ (by decide))),
      fmtGeocoding_err _ msg (Or.inl (hlook _ (by decide))),
      fmtNews_err _ msg (Or.inr (hlook _ (by decide))),
      fmtDictionary_err _ msg (Or.inl (hlook _ (by decide))),
      fmtCountry_err _ msg (Or.inl (hlook _ (by decide))),
      fmtQuotes_err _ msg (Or.inr (hlook _ (by decide))),
      fmtGithub_err _ msg (Or.inr (hlook _ (by decide))),
      fmtStackoverflow_err _ msg (Or.inr (hlook _ (by decide)))]
  rfl

/-- Counterexample for C2 as stated: on a total aggregation failure the
formatted document is exactly the header line and contains no
"no results"-style text anywhere (case-insensitively), so the Formatter
does not render a "no results found" document. -/
theorem C2_no_results_text_counterexample :
    format_results ("test".S)
      (search_all_sources ("test".S) (envAllFail ("no network".S)) sourceNames) =
      "## Search Results for: *test*\n".S ∧
    isSubstr ("no results".S)
      (pyLower (format_results ("test".S)
        (search_all_sources ("test".S) (envAllFail ("no network".S)) sourceNames))) =
      false := by decide

/-- Witness for C2 (amended) at a concrete query, message and order. -/
theorem C2_all_adapters_fail_witness :
    sourceNames.Perm sourceNames ∧
    format_results ("q".S)
      (search_all_sources ("q".S) (envAllFail ("boom".S)) sourceNames) =
      headerFor ("q".S) :=
  ⟨List.Perm.refl _,
   (C2_all_adapters_fail ("q".S) ("boom".S) sourceNames (List.Perm.refl _)).2⟩

theorem header_split (q : Str) :
    headerFor q = ("## Search Results for: *".S ++ q ++ "*".S) ++ [10] := by
  simp only [headerFor, List.append_assoc]
  rfl

theorem pyJoin_head_split (sep A H : Str) (hsep : sep = [10]) (hH : H = A ++ [10])
    (t : List Str) : ∃ r, pyJoin sep (H :: t) = A ++ 10 :: r := by
  cases t with
  | nil => exact ⟨[], by simp [pyJoin, hH]⟩
  | cons y t2 =>
    refine ⟨10 :: pyJoin sep (y :: t2), ?_⟩
    show H ++ sep ++ pyJoin sep (y :: t2) = _
    rw [hH, hsep]
    simp [List.append_assoc]

theorem format_results_split (q : Str) (results : List (Str × Val)) :
    ∃ r, format_results q results =
      ("## Search Results for: *".S ++ q ++ "*".S) ++ 10 :: r := by
  unfold format_results
  exact pyJoin_head_split _ _ _ rfl (header_split q) _

theorem firstLine_cut (a r : Str) (h : ∀ c ∈ a, decide (c ≠ 10) = true) :
    firstLine (a ++ 10 :: r) = a := by
  induction a with
  | nil => rfl
  | cons c cs ih =>
    have hc := h c (by simp)
    simp only [List.cons_append, firstLine, List.takeWhile_cons, hc, if_true]
    exact congrArg (fun l => c :: l) (ih (fun x hx => h x (by simp [hx])))

/-- Claim C10 (amended): for every query and results mapping the formatted
document is non-empty and begins with the header line; for every query
without embedded newlines its first line is exactly the header; and a source
whose entry is an error marker (of either shape) contributes no section.
(For a query containing a newline the first line is a proper piece of the
header; see the counterexample.) -/
theorem C10_format_header (q : Str) (results : List (Str × Val)) :
    (format_results q results ≠ [] ∧
     startsWith (format_results q results) (headerFor q) = true) ∧
    (noNL q = true →
      firstLine (format_results q results) = "## Search Results for: *".S ++ q ++ "*".S) ∧
    (∀ m : Str,
      ((lookupA results ("duckduckgo_instant".S) = some (errRec m) ∨
        lookupA results ("duckduckgo_instant".S) = some (VL [errRec m])) →
        fmtInstant results = []) ∧
      ((lookupA results ("wikipedia".S) = some (errRec m) ∨
        lookupA results ("wikipedia".S) = some (VL [errRec m])) →
        fmtWikipedia results = []) ∧
      ((lookupA results ("duckduckgo".S) = some (errRec m) ∨
        lookupA results ("duckduckgo".S) = some (VL [errRec m])) →
        fmtDuck results = []) ∧
      ((lookupA results ("arxiv".S) = some (errRec m) ∨
        lookupA results ("arxiv".S) = some (VL [errRec m])) →
        fmtArxiv results = []) ∧
      ((lookupA results ("pubmed".S) = some (errRec m) ∨
        lookupA results ("pubmed".S) = some (VL [errRec m])) →
        fmtPubmed results = []) ∧
      ((lookupA results ("books".S) = some (errRec m) ∨
        lookupA results ("books".S) = some (VL [errRec m])) →
        fmtBooks results = []) ∧
      ((lookupA results ("wikidata".S) = some (errRec m) ∨
        lookupA results ("wikidata".S) = some (VL [errRec m])) →
        fmtWikidata results = []) ∧
      ((lookupA results ("weather".S) = some (errRec m) ∨
        lookupA results ("weather".S) = some (VL [errRec m])) →
        fmtWeather results = []) ∧
      ((lookupA results ("air_quality".S) = some (errRec m) ∨
        lookupA results ("air_quality".S) = some (VL [errRec m])) →
        fmtAirQuality results = []) ∧
      ((lookupA results ("geocoding".S) = some (errRec m) ∨
        lookupA results ("geocoding".S) = some (VL [errRec m])) →
        fmtGeocoding results = []) ∧
      ((lookupA results ("news".S) = some (errRec m) ∨
        lookupA results ("news".S) = some (VL [errRec m])) →
        fmtNews results = []) ∧
      ((lookupA results ("dictionary".S) = some (errRec m) ∨
        lookupA results ("dictionary".S) = some (VL [errRec m])) →
        fmtDictionary results = []) ∧
      ((lookupA results ("country".S) = some (errRec m) ∨
        lookupA results ("country".S) = some (VL [errRec m])) →
        fmtCountry results = []) ∧
      ((lookupA results ("quotes".S) = some (errRec m) ∨
        lookupA results ("quotes".S) = some (VL [errRec m])) →
        fmtQuotes results = []) ∧
      ((lookupA results ("github".S) = some (errRec m) ∨
        lookupA results ("github".S) = some (VL [errRec m])) →
        fmtGithub results = []) ∧
      ((lookupA results ("stackoverflow".S) = some (errRec m) ∨
        lookupA results ("stackoverflow".S) = some (VL [errRec m])) →
        fmtStackoverflow results = [])) := by
  obtain ⟨r, hr⟩ := format_results_split q results
  refine ⟨⟨?_, ?_⟩, ?_, ?_⟩
  · rw [hr]
    exact List.cons_ne_nil _ _
  · rw [hr, header_split,
        show ("## Search Results for: *".S ++ q ++ "*".S) ++ 10 :: r =
          (("## Search Results for: *".S ++ q ++ "*".S) ++ [10]) ++ r by
            simp [List.append_assoc]]
    exact startsWith_append_self _ _
  · intro hq
    rw [hr]
    apply firstLine_cut
    intro c hc
    have hlit1 : ∀ c ∈ "## Search Results for: *".S, decide (c ≠ 10) = true := by
      decide
    have hlit2 : ∀ c ∈ "*".S, decide (c ≠ 10) = true := by decide
    rcases List.mem_append.mp hc with hc | hc
    · rcases List.mem_append.mp hc with hc | hc
      · exact hlit1 c hc
      · exact List.all_eq_true.mp hq c hc
    · exact hlit2 c hc
  · intro m
    exact ⟨fmtInstant_err results m, fmtWikipedia_err results m,
      fmtDuck_err results m, fmtArxiv_err results m, fmtPubmed_err results m,
      fmtBooks_err results m, fmtWikidata_err results m, fmtWeather_err results m,
      fmtAirQuality_err results m, fmtGeocoding_err results m, fmtNews_err results m,
      fmtDictionary_err results m, fmtCountry_err results m, fmtQuotes_err results m,
      fmtGithub_err results m, fmtStackoverflow_err results m⟩

/-- Counterexample for C10 as stated: for a query containing a newline, the
first line of the document is not the full header. -/
theorem C10_first_line_counterexample :
    ¬ (firstLine (format_results ("a\nb".S) []) =
        "## Search Results for: *".S ++ "a\nb".S ++ "*".S) := by decide

/-- Witness for C10 (amended) at a concrete query and results mapping. -/
theorem C10_format_header_witness :
    noNL ("q".S) = true ∧
    (lookupA [(("wikipedia".S : Str), errRec ("x".S))] ("wikipedia".S) =
      some (errRec ("x".S)) ∨
     lookupA [(("wikipedia".S : Str), errRec ("x".S))] ("wikipedia".S) =
      some (VL [errRec ("x".S)])) ∧
    firstLine (format_results ("q".S) [("wikipedia".S, errRec ("x".S))]) =
      "## Search Results for: *".S ++ "q".S ++ "*".S ∧
    fmtWikipedia [(("wikipedia".S : Str), errRec ("x".S))] = [] :=
  ⟨by decide, Or.inl (by decide),
   (C10_format_header ("q".S) [("wikipedia".S, errRec ("x".S))]).2.1 (by decide),
   ((C10_format_header ("q".S) [("wikipedia".S, errRec ("x".S))]).2.2
      ("x".S)).2.1 (Or.inl (by decide))⟩

/-- Counterexample for C5 as stated: on HTTP 404 get_definition does not
produce a non-error "not found" outcome; it returns a record carrying the
reserved "error" key (an error marker). -/
theorem C5_definition_404_counterexample :
    get_definition ("rain".S) (Except.ok ⟨404, Except.ok Val.none⟩) =
      errRec ("Word ".S ++ apo ++ "rain".S ++ apo ++ " not found in dictionary".S) ∧
    hasKey (get_definition ("rain".S) (Except.ok ⟨404, Except.ok Val.none⟩))
      ("error".S) = true := by decide

/-- Claim C5 (amended): the status handling the three named adapters
actually implement: get_definition answers 404 with a "not found" message
delivered as an error-marker record (not a non-error outcome);
search_github_repos answers 403 with a distinct rate-limit error marker;
search_country answers any non-200 final status (after the 404 retry) with
a generic "not found" error marker. -/
theorem C5_status_handling (w query : Str) :
    (∀ b : Except Str Val, get_definition w (Except.ok ⟨404, b⟩) =
      errRec ("Word ".S ++ apo ++ w ++ apo ++ " not found in dictionary".S)) ∧
    (∀ (b : Except Str Val) (maxr : Nat),
      search_github_repos (Except.ok ⟨403, b⟩) maxr =
        VL [errRec "GitHub API rate limit exceeded. Try again later.".S]) ∧
    (∀ (s : Nat) (b : Except Str Val) (r2 : Except Str Resp), s ≠ 404 → s ≠ 200 →
      search_country query (Except.ok ⟨s, b⟩) r2 =
        errRec ("Country ".S ++ apo ++ query ++ apo ++ " not found".S)) ∧
    (∀ (b1 : Except Str Val) (s2 : Nat) (b2 : Except Str Val), s2 ≠ 200 →
      search_country query (Except.ok ⟨404, b1⟩) (Except.ok ⟨s2, b2⟩) =
        errRec ("Country ".S ++ apo ++ query ++ apo ++ " not found".S)) := by
  refine ⟨fun b => rfl, fun b maxr => rfl, ?_, ?_⟩
  · intro s b r2 h404 h200
    simp [search_country, countryProcess, h404, h200]
  · intro b1 s2 b2 h200
    simp [search_country, countryProcess, h200]

/-- Witness for C5 (amended) at a concrete non-200 status. -/
theorem C5_status_handling_witness :
    (500 : Nat) ≠ 404 ∧ (500 : Nat) ≠ 200 ∧
    search_country ("x".S) (Except.ok ⟨500, Except.ok Val.nil⟩) (Except.error ("e".S)) =
      errRec ("Country ".S ++ apo ++ "x".S ++ apo ++ " not found".S) :=
  ⟨by decide, by decide,
   (C5_status_handling ("w".S) ("x".S)).2.2.1 500 (Except.ok Val.nil)
     (Except.error ("e".S)) (by decide) (by decide)⟩

/-- Claim C7: if search_pubmed's first step fails, or returns an empty ID
list, the function returns the terminal error or "No articles found"
outcome, and its result does not depend on the second (efetch) step at all:
the second request is never consulted. -/
theorem C7_pubmed_short_circuit :
    (∀ (e : Str) (s2 : Except Str (List PubArticle)),
      search_pubmed (Except.error e) s2 = VL [errRec e]) ∧
    (∀ (sd : Val) (s2 s2' : Except Str (List PubArticle)),
      truthy (pubmedIds sd) = false →
      search_pubmed (Except.ok sd) s2 =
        VL [VD [("message".S, Val.s ("No articles found".S))]] ∧
      search_pubmed (Except.ok sd) s2 = search_pubmed (Except.ok sd) s2') := by
  refine ⟨fun e s2 => rfl, ?_⟩
  intro sd s2 s2' h
  constructor
  · simp [search_pubmed, h]
  · simp [search_pubmed, h]

/-- Witness for C7 at an esearch response containing no ID list. -/
theorem C7_pubmed_short_circuit_witness :
    truthy (pubmedIds (VD [])) = false ∧
    search_pubmed (Except.ok (VD [])) (Except.error ("boom".S)) =
      VL [VD [("message".S, Val.s ("No articles found".S))]] ∧
    search_pubmed (Except.ok (VD [])) (Except.error ("boom".S)) =
      search_pubmed (Except.ok (VD [])) (Except.ok []) :=
  ⟨by decide,
   (C7_pubmed_short_circuit.2 (VD []) (Except.error ("boom".S)) (Except.ok [])
      (by decide)).1,
   (C7_pubmed_short_circuit.2 (VD []) (Except.error ("boom".S)) (Except.ok [])
      (by decide)).2⟩

/-- Counterexample for C8 as stated: a Wikipedia page whose content has
1001 characters is stored as its first 1000 characters with no truncation
marker appended. -/
theorem C8_wiki_truncation_counterexample :
    dlookup (search_wikipedia ("x".S)
        (Except.ok (WikiUpstream.page ("t".S) ("s".S) ("u".S) []
          (List.replicate 1001 97))))
      ("content".S) = some (Val.s (List.replicate 1000 97)) ∧
    endsWith (List.replicate 1000 97) ("...".S) = false := by decide

/-- Claim C8 (amended): search_pubmed truncates abstracts longer than 500
characters to their first 500 characters with an explicit "..." marker;
search_wikipedia bounds the content field to the first 1000 characters of
the page content, without appending any marker. -/
theorem C8_truncation (a : PubArticle)
    (h : 500 < (a.abstract.getD ("No abstract available".S)).length) :
    dlookup (pubmedArticleRec a) ("abstract".S) =
      some (Val.s ((a.abstract.getD ("No abstract available".S)).take 500 ++ "...".S)) ∧
    (∀ (q t s u : Str) (cats : List Str) (content : Str),
      dlookup (search_wikipedia q (Except.ok (WikiUpstream.page t s u cats content)))
        ("content".S) = some (Val.s (content.take 1000))) := by
  constructor
  · have e : dlookup (pubmedArticleRec a) ("abstract".S) =
        some (Val.s (if 500 < (a.abstract.getD ("No abstract available".S)).length then
          (a.abstract.getD ("No abstract available".S)).take 500 ++ "...".S
          else a.abstract.getD ("No abstract available".S))) := rfl
    rw [e, if_pos h]
  · intro q t s u cats content
    rfl

/-- Witness for C8 (amended) at a concrete 501-character abstract. -/
theorem C8_truncation_witness :
    500 < ((some (List.replicate 501 97) : Option Str).getD
      ("No abstract available".S)).length ∧
    dlookup (pubmedArticleRec
        ⟨Option.none, some (List.replicate 501 97), [], Option.none, Option.none⟩)
      ("abstract".S) =
      some (Val.s ((List.replicate 501 97).take 500 ++ "...".S)) :=
  ⟨by simp, (C8_truncation
      ⟨Option.none, some (List.replicate 501 97), [], Option.none, Option.none⟩
      (by simp)).1⟩

theorem srcOK_VL (xs : List Val) (h : ∀ x ∈ xs, recOK x = true) :
    srcOK (VL xs) = true := by
  induction xs with
  | nil => rfl
  | cons x t ih =>
    show (recOK x && srcOK (VL t)) = true
    rw [h x (by simp), ih (fun y hy => h y (by simp [hy]))]
    rfl

theorem srcOK_VL_map {α : Type} (f : α → Val) (xs : List α)
    (h : ∀ x, recOK (f x) = true) : srcOK (VL (xs.map f)) = true := by
  apply srcOK_VL
  intro y hy
  obtain ⟨x, _, rfl⟩ := List.mem_map.mp hy
  exact h x

theorem ddgStep_recOK (t : Val) (acc : List Val)
    (hacc : ∀ r ∈ acc, recOK r = true) : ∀ r ∈ ddgStep t acc, recOK r = true := by
  intro r hr
  unfold ddgStep at hr
  split at hr
  · rcases List.mem_append.mp hr with h | h
    · exact hacc r h
    · simp only [List.mem_singleton] at h
      subst h
      rfl
  · split at hr
    · split at hr
      · rcases List.mem_append.mp hr with h | h
        · exact hacc r h
        · simp only [List.mem_singleton] at h
          subst h
          rfl
      · exact hacc r hr
    · exact hacc r hr

theorem ddgLoop_recOK (maxr : Nat) (topics : List Val) :
    ∀ (acc : List Val), (∀ r ∈ acc, recOK r = true) →
      ∀ r ∈ ddgLoop maxr topics acc, recOK r = true := by
  induction topics with
  | nil => intro acc hacc r hr; exact hacc r hr
  | cons t ts ih =>
    intro acc hacc r hr
    have hstep := ddgStep_recOK t acc hacc
    simp only [ddgLoop] at hr
    split at hr
    · exact hstep r hr
    · exact ih (ddgStep t acc) hstep r hr

theorem srcOK_search_arxiv (input : Except Str (List ArxivPaper)) :
    srcOK (search_arxiv input) = true := by
  cases input with
  | error e => rfl
  | ok papers => exact srcOK_VL_map arxivRec papers (fun p => rfl)

theorem srcOK_search_duckduckgo (input : Except Str Val) (maxr : Nat) :
    srcOK (search_duckduckgo input maxr) = true := by
  cases input with
  | error e => rfl
  | ok data =>
    refine srcOK_VL _ (ddgLoop_recOK maxr _ _ ?_)
    intro r hr
    split at hr
    · simp only [List.mem_singleton] at hr
      subst hr
      rfl
    · simp at hr

theorem srcOK_get_instant_answer (input : Except Str Val) :
    srcOK (get_instant_answer input) = true := by
  cases input <;> rfl

theorem srcOK_search_news (q : Str) (scraped : Except Str (List Str × List Str))
    (fb : Except Str Val) (maxr : Nat) : srcOK (search_news q scraped fb maxr) = true := by
  cases scraped with
  | error e => rfl
  | ok ts =>
    simp only [search_news]
    split
    · exact srcOK_search_duckduckgo fb maxr
    · exact srcOK_VL_map (newsRec q) _ (fun p => rfl)

theorem srcOK_search_wikipedia (q : Str) (input : Except Str WikiUpstream) :
    srcOK (search_wikipedia q input) = true := by
  cases input with
  | error e => rfl
  | ok w => cases w <;> rfl

theorem srcOK_get_weather_wttr (loc : Str) (input : Except Str Val) :
    srcOK (get_weather_wttr loc input) = true := by
  cases input with
  | error e => rfl
  | ok data =>
    simp only [get_weather_wttr]
    split
    · rfl
    · split <;> rfl

theorem srcOK_get_air_quality (loc : Str) (input : Except Str Val) :
    srcOK (get_air_quality loc input) = true := by
  cases input with
  | error e => rfl
  | ok data =>
    simp only [get_air_quality]
    split <;> rfl

theorem srcOK_search_wikidata (input : Except Str Val) :
    srcOK (search_wikidata input) = true := by
  cases input with
  | error e => rfl
  | ok data => exact srcOK_VL_map wikidataRec _ (fun x => rfl)

theorem srcOK_search_books (input : Except Str Val) (maxr : Nat) :
    srcOK (search_books input maxr) = true := by
  cases input with
  | error e => rfl
  | ok data => exact srcOK_VL_map bookRec _ (fun x => rfl)

theorem srcOK_search_pubmed (step1 : Except Str Val)
    (step2 : Except Str (List PubArticle)) :
    srcOK (search_pubmed step1 step2) = true := by
  cases step1 with
  | error e => rfl
  | ok sd =>
    simp only [search_pubmed]
    split
    · rfl
    · split
      · rfl
      · exact srcOK_VL_map pubmedArticleRec _ (fun a => rfl)

theorem srcOK_geocode_location (loc : Str) (input : Except Str Val) :
    srcOK (geocode_location loc input) = true := by
  cases input with
  | error e => rfl
  | ok data =>
    simp only [geocode_location]
    split <;> rfl

theorem srcOK_get_definition (word : Str) (input : Except Str Resp) :
    srcOK (get_definition word input) = true := by
  cases input with
  | error e => rfl
  | ok resp =>
    simp only [get_definition]
    split
    · rfl
    · split
      · rfl
      · split <;> rfl

theorem srcOK_countryProcess (q : Str) (resp : Resp) :
    srcOK (countryProcess q resp) = true := by
  simp only [countryProcess]
  split
  · rfl
  · split
    · rfl
    · split <;> rfl

theorem srcOK_search_country (q : Str) (r1 r2 : Except Str Resp) :
    srcOK (search_country q r1 r2) = true := by
  cases r1 with
  | error e => rfl
  | ok resp1 =>
    simp only [search_country]
    split
    · cases r2 with
      | error e => rfl
      | ok resp2 => exact srcOK_countryProcess q resp2
    · exact srcOK_countryProcess q resp1

theorem srcOK_search_quotes (j1 j2 : Except Str Val) (maxr : Nat) :
    srcOK (search_quotes j1 j2 maxr) = true := by
  cases j1 with
  | error e => rfl
  | ok data =>
    simp only [search_quotes]
    split
    · split
      · rfl
      · exact srcOK_VL_map quoteRandomRec _ (fun x => rfl)
    · exact srcOK_VL_map quoteRec _ (fun x => rfl)

theorem srcOK_search_github_repos (input : Except Str Resp) (maxr : Nat) :
    srcOK (search_github_repos input maxr) = true := by
  cases input with
  | error e => rfl
  | ok resp =>
    simp only [search_github_repos]
    split
    · rfl
    · split
      · rfl
      · exact srcOK_VL_map repoRec _ (fun x => rfl)

theorem srcOK_search_stackoverflow (input : Except Str Val) (maxr : Nat) :
    srcOK (search_stackoverflow input maxr) = true := by
  cases input with
  | error e => rfl
  | ok data => exact srcOK_VL_map soRec _ (fun x => rfl)

/-- Claim C6: for every one of the 16 adapter functions and every upstream
input, every top-level record of the returned SourceResult is either a pure
one-field error marker or carries no "error" key at all: error and success
fields are mutually exclusive in every returned record. -/
theorem C6_error_success_exclusive :
    (∀ input, srcOK (search_arxiv input) = true) ∧
    (∀ input maxr, srcOK (search_duckduckgo input maxr) = true) ∧
    (∀ input, srcOK (get_instant_answer input) = true) ∧
    (∀ q scraped fb maxr, srcOK (search_news q scraped fb maxr) = true) ∧
    (∀ q input, srcOK (search_wikipedia q input) = true) ∧
    (∀ loc input, srcOK (get_weather_wttr loc input) = true) ∧
    (∀ loc input, srcOK (get_air_quality loc input) = true) ∧
    (∀ input, srcOK (search_wikidata input) = true) ∧
    (∀ input maxr, srcOK (search_books input maxr) = true) ∧
    (∀ step1 step2, srcOK (search_pubmed step1 step2) = true) ∧
    (∀ loc input, srcOK (geocode_location loc input) = true) ∧
    (∀ word input, srcOK (get_definition word input) = true) ∧
    (∀ q r1 r2, srcOK (search_country q r1 r2) = true) ∧
    (∀ j1 j2 maxr, srcOK (search_quotes j1 j2 maxr) = true) ∧
    (∀ input maxr, srcOK (search_github_repos input maxr) = true) ∧
    (∀ input maxr, srcOK (search_stackoverflow input maxr) = true) :=
  ⟨srcOK_search_arxiv, srcOK_search_duckduckgo, srcOK_get_instant_answer,
   srcOK_search_news, srcOK_search_wikipedia, srcOK_get_weather_wttr,
   srcOK_get_air_quality, srcOK_search_wikidata, srcOK_search_books,
   srcOK_search_pubmed, srcOK_geocode_location, srcOK_get_definition,
   srcOK_search_country, srcOK_search_quotes, srcOK_search_github_repos,
   srcOK_search_stackoverflow⟩
